import Mathlib

/-!
# DWebsocket: the `WS` connection manager of `src/index.js`

A shallow embedding of the class `WS` together with the parts of the host it
talks to: the transports created by `new WebSocket(url)`, the interval timers
created by `setInterval`, the console and the user callbacks.

Modelling conventions.

* A transport handle is the index of the transport in `World.transports`; a
  timer handle is the index of the timer in `World.timers`.  Handles returned
  by `setInterval` are truthy, so `if (this.reconnectTimer)` is the test
  `reconnectTimer ≠ none`.
* The host is single threaded: every method call, every notification and
  every timer tick runs to completion, so each is one function on `World`.
* User callbacks are opaque: an invocation is recorded in `World.log` with its
  arguments, and a callback does not call back into the manager.  The class
  catches what a callback throws in one place only, the `try` block of
  `privateOnReceive`; there the callback may throw (`Platform.onReceiveCall`).
  Everywhere else the call of a callback is the last statement that runs, what
  it throws leaves the class without changing the world, and the methods are
  described for callbacks that return.
* `new WebSocket`, `JSON.parse` and `JSON.stringify` belong to the host and are
  parameters (`Platform`): nothing is assumed about the text `JSON.stringify`
  writes, nor about the values on which it throws.
-/

namespace DWebsocket

/-! ## Values exchanged with the caller -/

/-- The values a caller passes to `send` and `JSON.parse` returns.  Numbers
that are integers, strings, arrays and objects are written out; `other` is any
other JavaScript value (a non-integer number, a BigInt, an object that refers
to itself, a function), known by a reference only.  The manager never looks
inside a value: it hands it to `JSON.stringify` or to `onReceive`. -/
inductive Json where
  | null
  | bool (b : Bool)
  | num (n : Int)
  | str (s : String)
  | arr (items : List Json)
  | obj (fields : List (String × Json))
  | other (ref : Nat)

/-! ## The host: transports, timers, console, callbacks -/

/-- The four notifications of a transport (`'open'`, `'close'`, `'message'`,
`'error'`). -/
inductive EventKind where
  | onOpen
  | onClose
  | onMessage
  | onError
  deriving DecidableEq, Repr

/-- The four handlers bound once in the constructor (`this[propOnConnect]`,
`this[propOnDisConnect]`, `this[propOnReceive]`, `this[propOnError]`). -/
inductive Handler where
  | propOnConnect
  | propOnDisConnect
  | propOnReceive
  | propOnError
  deriving DecidableEq, Repr

/-- An event object delivered by transport `target`; `data` is the text
payload of a message event. -/
structure Event where
  kind : EventKind
  target : Nat
  data : String

/-- Values handed to the console and to user callbacks. -/
inductive Value where
  | undefined
  | errorObj (code : Int) (msg : String)
  | event (e : Event)
  | json (v : Json)
  | text (s : String)

/-- The property `error.msg`: only the objects `{ code, msg }` built by
`connect` have it. -/
def Value.msg : Value → Option String
  | .errorObj _ m => some m
  | _ => none

/-- Observable output of the manager. -/
inductive Effect where
  | consoleLog (s : String)
  | consoleWarn (s : String)
  | consoleError (msg : Option String) (err : Value)
  | call (fn : Nat) (args : List Value)

/-- A transport created by `new WebSocket(url)`. -/
structure Transport where
  url : String
  readyState : Nat
  listeners : List (EventKind × Handler)
  sent : List String
  closeCalls : Nat

/-- A timer created by `setInterval`; `armed` is false once it is cleared. -/
structure Timer where
  interval : Nat
  armed : Bool

/-- What the environment of the manager decides: whether `new WebSocket(url)`
throws (with which message), what `JSON.parse` does with a text and
`JSON.stringify` with a value (the message of the error thrown, or the
result), and whether the user function stored in `onReceive` returns or throws
when it is called with an argument. -/
structure Platform where
  newWebSocket : String → Except String Unit
  jsonParse : String → Except String Json
  jsonStringify : Json → Except String String
  onReceiveCall : Nat → Value → Except String Unit

/-! ## The manager -/

/-- A callback option as passed to the constructor. -/
inductive OptionValue where
  | missing
  | nonFunction
  | function (id : Nat)

/-- The expression `typeof x === 'function' ? x : null`. -/
def OptionValue.asFunction : OptionValue → Option Nat
  | .function id => some id
  | _ => none

/-- The constructor argument `options`. -/
structure Options where
  url : Option String
  token : Option String
  reconnectInterval : Option Nat
  onConnect : OptionValue
  onDisConnect : OptionValue
  onClose : OptionValue
  onReceive : OptionValue
  onError : OptionValue

/-- The fields of a `WS` instance. -/
structure WS where
  url : String
  token : String
  socketUrl : String
  initStatus : Int
  reconnectInterval : Nat
  webSocket : Option Nat
  reconnectTimer : Option Nat
  onConnect : Option Nat
  onDisConnect : Option Nat
  onClose : Option Nat
  onReceive : Option Nat
  onError : Option Nat

/-- The manager together with everything it has created and printed. -/
structure World where
  ws : WS
  transports : List Transport
  timers : List Timer
  log : List Effect

/-- Result of a method call: the world it leaves and either the returned value
or the message of the error it throws. -/
structure Outcome (α : Type) where
  world : World
  ret : Except String α

/-- The constructor of `WS` (lines 11-41). -/
def WS.new (options : Options) : WS :=
  { url := options.url.getD ""
    token := options.token.getD ""
    socketUrl := ""
    initStatus := 0
    reconnectInterval :=
      match options.reconnectInterval with
      | some n => if n = 0 then 5000 else n
      | none => 5000
    webSocket := none
    reconnectTimer := none
    onConnect := options.onConnect.asFunction
    onDisConnect := options.onConnect.asFunction
    onClose := options.onClose.asFunction
    onReceive := options.onReceive.asFunction
    onError := options.onError.asFunction }

/-- The world right after `new WS(options)`. -/
def World.init (options : Options) : World :=
  { ws := WS.new options, transports := [], timers := [], log := [] }

/-- Append one effect to the log. -/
def World.emit (w : World) (e : Effect) : World :=
  { w with log := w.log ++ [e] }

/-- Apply `f` to transport `t`. -/
def World.onTransport (w : World) (t : Nat) (f : Transport → Transport) : World :=
  { w with transports := w.transports.modify f t }

/-- The host's `clearInterval(h)`; clearing `null` does nothing. -/
def clearInterval (h : Option Nat) (w : World) : World :=
  match h with
  | some id => { w with timers := w.timers.modify (fun tm => { tm with armed := false }) id }
  | none => w

/-- The method `addEventListener(kind, h)` of a transport: a listener that is
already registered is not added again. -/
def Transport.addEventListener (k : EventKind) (h : Handler) (tr : Transport) : Transport :=
  if (k, h) ∈ tr.listeners then tr else { tr with listeners := tr.listeners ++ [(k, h)] }

/-- The method `removeEventListener(kind, h)` of a transport. -/
def Transport.removeEventListener (k : EventKind) (h : Handler) (tr : Transport) : Transport :=
  { tr with listeners := tr.listeners.filter (fun l => decide (l ≠ (k, h))) }

/-- The method `close()` of a transport: a connecting or open transport starts
closing, a closing or closed one stays as it is. -/
def Transport.close (tr : Transport) : Transport :=
  { tr with
    closeCalls := tr.closeCalls + 1
    readyState := if tr.readyState = 0 ∨ tr.readyState = 1 then 2 else tr.readyState }

/-- The method `send(text)` of a transport. -/
def Transport.send (text : String) (tr : Transport) : Transport :=
  { tr with sent := tr.sent ++ [text] }

/-- A transport as `new WebSocket(url)` returns it: connecting, no listener. -/
def Transport.fresh (url : String) : Transport :=
  { url := url, readyState := 0, listeners := [], sent := [], closeCalls := 0 }

/-- The method `privateOnError(error, evt)` (lines 153-156). -/
def privateOnError (error evt : Value) (w : World) : World :=
  let w1 := w.emit (.consoleError error.msg error)
  match w1.ws.onError with
  | some f => w1.emit (.call f [error, evt])
  | none => w1

/-- The method `connect(isBindEvent)` (lines 47-79). -/
def connect (P : Platform) (isBindEvent : Bool) (w : World) : Outcome Bool :=
  if w.ws.url = "" then
    ⟨privateOnError (.errorObj (-1) "url can not be empty") .undefined w, .ok false⟩
  else if w.ws.token = "" then
    ⟨privateOnError (.errorObj (-1) "token can not be empty") .undefined w, .ok false⟩
  else
    let socketUrl := w.ws.url ++ "?token=" ++ w.ws.token
    let w1 : World := { w with ws := { w.ws with socketUrl := socketUrl } }
    match P.newWebSocket socketUrl with
    | .ok () =>
      let t := w1.transports.length
      let w2 : World :=
        { w1 with
          transports := w1.transports ++ [Transport.fresh socketUrl]
          ws := { w1.ws with webSocket := some t } }
      let w3 : World :=
        if isBindEvent then
          (((w2.onTransport t (Transport.addEventListener .onOpen .propOnConnect)).onTransport t
            (Transport.addEventListener .onClose .propOnDisConnect)).onTransport t
            (Transport.addEventListener .onMessage .propOnReceive)).onTransport t
            (Transport.addEventListener .onError .propOnError)
        else w2
      ⟨w3, .ok true⟩
    | .error message =>
      let w2 : World := { w1 with ws := { w1.ws with initStatus := -1 } }
      ⟨privateOnError (.errorObj (-1) message) .undefined w2, .ok false⟩

/-- The method `status()` (lines 84-86):
`this.webSocket && this.webSocket.readyState || -1`.  A null handle and a
ready state of `0` are both falsy, so both give `-1`. -/
def status (w : World) : Int :=
  match w.ws.webSocket with
  | none => -1
  | some t =>
    match w.transports[t]? with
    | none => -1
    | some tr => if tr.readyState = 0 then -1 else (tr.readyState : Int)

/-- The method `send(params)` (lines 92-94).  Nothing catches what
`JSON.stringify(params)` throws: it leaves `send` before anything is handed to
the transport. -/
def send (P : Platform) (params : Json) (w : World) : Outcome Unit :=
  if status w = 1 then
    match w.ws.webSocket with
    | some t =>
      match P.jsonStringify params with
      | .ok text => ⟨w.onTransport t (Transport.send text), .ok ()⟩
      | .error message => ⟨w, .error message⟩
    | none => ⟨w, .error "TypeError: this.webSocket is null"⟩
  else ⟨w, .ok ()⟩

/-- The method `close()` (lines 99-110).  With `this.webSocket` null the first
`this.webSocket.removeEventListener` throws a TypeError, after the timer has
been dealt with. -/
def close (w : World) : Outcome Unit :=
  let w1 : World :=
    match w.ws.reconnectTimer with
    | some id => { clearInterval (some id) w with ws := { w.ws with reconnectTimer := none } }
    | none => w
  match w1.ws.webSocket with
  | none => ⟨w1, .error "TypeError: this.webSocket is null"⟩
  | some t =>
    let w2 :=
      ((((w1.onTransport t (Transport.removeEventListener .onOpen .propOnConnect)).onTransport t
        (Transport.removeEventListener .onClose .propOnDisConnect)).onTransport t
        (Transport.removeEventListener .onMessage .propOnReceive)).onTransport t
        (Transport.removeEventListener .onError .propOnError)).onTransport t Transport.close
    ⟨{ w2 with ws := { w2.ws with webSocket := none } }, .ok ()⟩

/-- The function handed to `setInterval` by `reconnect` (lines 117-124). -/
def reconnectTick (P : Platform) (w : World) : World :=
  if w.ws.initStatus = 1 then
    let w1 := clearInterval w.ws.reconnectTimer w
    { w1 with ws := { w1.ws with reconnectTimer := none } }
  else (connect P false w).world

/-- The method `reconnect()` (lines 115-125): a new interval timer is created
and its handle stored in `reconnectTimer`. -/
def reconnect (w : World) : World :=
  { w with
    timers := w.timers ++ [{ interval := w.ws.reconnectInterval, armed := true }]
    ws := { w.ws with reconnectTimer := some w.timers.length } }

/-- The method `privateOnConnect(evt)` (lines 127-131). -/
def privateOnConnect (evt : Event) (w : World) : World :=
  let w1 : World := { w with ws := { w.ws with initStatus := 1 } }
  let w2 := w1.emit (.consoleLog ("websocket init success [" ++ w1.ws.url ++ "]"))
  match w2.ws.onConnect with
  | some f => w2.emit (.call f [.event evt])
  | none => w2

/-- The method `privateOnDisconnect()` (lines 133-141). -/
def privateOnDisconnect (w : World) : World :=
  if w.ws.initStatus = -1 ∨ w.ws.initStatus = 0 then
    (reconnect w).emit (.consoleWarn "websocket init fail reconnect...")
  else
    (reconnect w).emit (.consoleWarn "websocket exception reconnect...")

/-- The `try` block of `privateOnReceive` (lines 144-147): the world it leaves
and, when `JSON.parse` or the call of `onReceive` throws, the message of the
error that reaches the `catch`. -/
def receiveTry (P : Platform) (evt : Event) (w : World) : World × Option String :=
  match P.jsonParse evt.data with
  | .error message => (w, some message)
  | .ok data =>
    match w.ws.onReceive with
    | none => (w, none)
    | some f =>
      match P.onReceiveCall f (.json data) with
      | .ok () => (w.emit (.call f [.json data]), none)
      | .error message => (w.emit (.call f [.json data]), some message)

/-- The method `privateOnReceive(evt)` (lines 143-151): the `try` block, and
the `catch` block when something was thrown in it. -/
def privateOnReceive (P : Platform) (evt : Event) (w : World) : World :=
  match receiveTry P evt w with
  | (w1, none) => w1
  | (w1, some message) =>
    let w2 := w1.emit (.consoleWarn message)
    match w2.ws.onReceive with
    | some f => w2.emit (.call f [.text evt.data])
    | none => w2

/-! ## The event loop -/

/-- A listener called by the host with the event as its only argument. -/
def invoke (P : Platform) (h : Handler) (evt : Event) (w : World) : World :=
  match h with
  | .propOnConnect => privateOnConnect evt w
  | .propOnDisConnect => privateOnDisconnect w
  | .propOnReceive => privateOnReceive P evt w
  | .propOnError => privateOnError (.event evt) .undefined w

/-- The listeners of transport `t` registered for `k`, in registration order. -/
def listenersFor (w : World) (t : Nat) (k : EventKind) : List Handler :=
  match w.transports[t]? with
  | none => []
  | some tr => (tr.listeners.filter (fun l => decide (l.1 = k))).map Prod.snd

/-- The ready state a transport has when it delivers a notification: open when
it fires `open`, closed when it fires `close`. -/
def Transport.noteEvent (k : EventKind) (tr : Transport) : Transport :=
  match k with
  | .onOpen => { tr with readyState := 1 }
  | .onClose => { tr with readyState := 3 }
  | _ => tr

/-- Transport `t` delivers a notification of kind `k`: its listeners for `k`
run in order. -/
def notify (P : Platform) (t : Nat) (k : EventKind) (data : String) (w : World) : World :=
  (listenersFor w t k).foldl (fun acc h => invoke P h ⟨k, t, data⟩ acc)
    (w.onTransport t (Transport.noteEvent k))

/-- Whether timer `id` exists and has not been cleared. -/
def isArmed (w : World) (id : Nat) : Bool :=
  match w.timers[id]? with
  | some tm => tm.armed
  | none => false

/-- Interval timer `id` fires: its callback runs unless the timer was cleared. -/
def tick (P : Platform) (id : Nat) (w : World) : World :=
  if isArmed w id then reconnectTick P w else w

/-- What can happen to a manager: a call of a public method by the caller, a
notification of a transport, or a tick of a timer. -/
inductive Action where
  | connect (isBindEvent : Bool)
  | status
  | send (params : Json)
  | close
  | notify (t : Nat) (k : EventKind) (data : String)
  | tick (id : Nat)

/-- One step of the event loop. -/
def step (P : Platform) (w : World) : Action → World
  | .connect b => (connect P b w).world
  | .status => w
  | .send p => (send P p w).world
  | .close => (close w).world
  | .notify t k d => notify P t k d w
  | .tick id => tick P id w

/-- A sequence of steps. -/
def run (P : Platform) (w : World) (actions : List Action) : World :=
  actions.foldl (step P) w

/-- The four registrations made by `connect` (lines 64-70) and undone by
`close` (lines 104-107). -/
def boundPairs : List (EventKind × Handler) :=
  [(.onOpen, .propOnConnect), (.onClose, .propOnDisConnect),
   (.onMessage, .propOnReceive), (.onError, .propOnError)]

/-- Actions of the host (notifications and ticks), as opposed to calls made by
the caller. -/
def Action.isHostEvent : Action → Bool
  | .notify _ _ _ => true
  | .tick _ => true
  | _ => false

/-- `JSON.stringify` of the sample hosts, tabulated on the values used below:
`{a:1}` and `null` are written as `JSON.stringify` writes them; on the sample
hosts every reference `other r` is an object that refers to itself, on which
`JSON.stringify` throws a TypeError.  The values outside this table are not
used below; the table rejects them as well. -/
def sampleStringify : Json → Except String String
  | .obj [("a", .num 1)] => .ok "\x7b\"a\":1\x7d"
  | .null => .ok "null"
  | _ => .error "TypeError: the value cannot be serialized"

/-- A host on which every construction succeeds, no text decodes and the
`onReceive` callback returns. -/
def Platform.plain : Platform :=
  { newWebSocket := fun _ => .ok ()
    jsonParse := fun _ => .error "Unexpected token"
    jsonStringify := sampleStringify
    onReceiveCall := fun _ _ => .ok () }

/-- The configuration of the scenario `wss://x`, token `t`, interval 1000. -/
def Options.sample : Options :=
  { url := some "wss://x"
    token := some "t"
    reconnectInterval := some 1000
    onConnect := .function 1
    onDisConnect := .function 2
    onClose := .missing
    onReceive := .function 3
    onError := .function 4 }

/-- The sample configuration without a url. -/
def Options.noUrl : Options :=
  { Options.sample with url := none }


/-- The sample manager right after a successful `connect()`. -/
def World.sampleConnected : World :=
  run Platform.plain (World.init Options.sample) [.connect true]

/-- The sample manager after `connect()` and a close notification of its
transport: the transport is held and the reconnect timer is armed. -/
def World.sampleDropped : World :=
  run Platform.plain (World.init Options.sample) [.connect true, .notify 0 .onClose ""]

/-- A host on which every construction throws. -/
def Platform.refusing : Platform :=
  { Platform.plain with newWebSocket := fun _ => .error "The URL is invalid" }

/-- A host that decodes the text `1` and rejects every other text. -/
def Platform.decoding : Platform :=
  { Platform.plain with
    jsonParse := fun s => if s = "1" then .ok (.num 1) else .error "Unexpected token" }

/-- The host `Platform.decoding` with an `onReceive` callback that throws when
it is handed a decoded value and returns when it is handed a text. -/
def Platform.throwing : Platform :=
  { Platform.decoding with
    onReceiveCall := fun _ v =>
      match v with
      | .json _ => .error "the callback failed"
      | _ => .ok () }

/-- The sample configuration without a connect option; its disconnect option
is still a function. -/
def Options.noConnect : Options :=
  { Options.sample with onConnect := .missing, onDisConnect := .function 2 }

/-- The sample manager after `connect()` and the open notification of its
transport. -/
def World.sampleOpen : World :=
  run Platform.plain (World.init Options.sample) [.connect true, .notify 0 .onOpen ""]

/-- The sample manager after `connect()`, `close()` and a second `connect()`. -/
def World.sampleReconnected : World :=
  run Platform.plain (World.init Options.sample) [.connect true, .close, .connect true]

/-! ## Predicates on worlds -/

/-- Every listener on every transport is one of the four registrations of
`connect`. -/
def Bound (w : World) : Prop :=
  ∀ (i : Nat) (tr : Transport), w.transports[i]? = some tr → ∀ l ∈ tr.listeners, l ∈ boundPairs

/-- No handle is held, no listener is registered and no timer is armed. -/
def Quiet (w : World) : Prop :=
  w.ws.webSocket = none ∧ w.ws.reconnectTimer = none ∧
  (∀ (i : Nat) (tr : Transport), w.transports[i]? = some tr → tr.listeners = []) ∧
  (∀ i : Nat, isArmed w i = false)

/-- The four `removeEventListener` calls and the `close()` call of `close`, as
one update of the transport. -/
def Transport.teardown (tr : Transport) : Transport :=
  Transport.close (Transport.removeEventListener .onError .propOnError
    (Transport.removeEventListener .onMessage .propOnReceive
      (Transport.removeEventListener .onClose .propOnDisConnect
        (Transport.removeEventListener .onOpen .propOnConnect tr))))

/-- What the manager keeps true of the transports it has created: the handle
in `webSocket` references a transport on which `close()` was not called, and a
transport on which `close()` was called was closed once, carries no listener
and is not referenced by `webSocket`. -/
def Owned (w : World) : Prop :=
  (∀ t : Nat, w.ws.webSocket = some t →
    ∃ tr, w.transports[t]? = some tr ∧ tr.closeCalls = 0) ∧
  (∀ (i : Nat) (tr : Transport), w.transports[i]? = some tr →
    tr.closeCalls = 0 ∨ (tr.closeCalls = 1 ∧ tr.listeners = [] ∧ w.ws.webSocket ≠ some i))

/-- States reached from a constructed manager by calls, notifications and
ticks. -/
def Reachable (P : Platform) (w : World) : Prop :=
  ∃ (options : Options) (actions : List Action), w = run P (World.init options) actions

/-! ## Theorems -/

/-! ### Lists and `status` -/

theorem modify_eq_of_fix {α : Type} (f : α → α) (n : Nat) (l : List α)
    (h : ∀ a, l[n]? = some a → f a = a) : l.modify f n = l := by
  apply List.ext_getElem?
  intro m
  rw [List.getElem?_modify]
  by_cases hnm : n = m
  · subst hnm
    cases ha : l[n]? with
    | none => simp
    | some a => simp [h a ha]
  · simp [hnm]

theorem modify_congr_at {α : Type} (f g : α → α) (n : Nat) (l : List α)
    (h : ∀ a, l[n]? = some a → f a = g a) : l.modify f n = l.modify g n := by
  apply List.ext_getElem?
  intro m
  rw [List.getElem?_modify, List.getElem?_modify]
  by_cases hnm : n = m
  · subst hnm
    cases ha : l[n]? with
    | none => simp
    | some a => simp [h a ha]
  · simp [hnm]

theorem status_eq_one_iff (w : World) :
    status w = 1 ↔
      ∃ t tr, w.ws.webSocket = some t ∧ w.transports[t]? = some tr ∧ tr.readyState = 1 := by
  unfold status
  cases hws : w.ws.webSocket with
  | none => simp
  | some t =>
    cases htr : w.transports[t]? with
    | none => simp [htr]
    | some tr =>
      by_cases h0 : tr.readyState = 0
      · simp [htr, h0]
      · simp only [htr, h0, if_false]
        constructor
        · intro h
          exact ⟨t, tr, rfl, htr, by exact_mod_cast h⟩
        · rintro ⟨t', tr', ht', h', h1⟩
          cases ht'
          rw [htr] at h'
          cases h'
          exact_mod_cast h1

/-! ### Frame lemmas for the handlers -/

theorem privateOnError_frame (error evt : Value) (w : World) :
    (privateOnError error evt w).ws = w.ws ∧
    (privateOnError error evt w).transports = w.transports ∧
    (privateOnError error evt w).timers = w.timers := by
  unfold privateOnError World.emit
  cases h : w.ws.onError <;> simp [h]

theorem privateOnReceive_frame (P : Platform) (evt : Event) (w : World) :
    (privateOnReceive P evt w).ws = w.ws ∧
    (privateOnReceive P evt w).transports = w.transports ∧
    (privateOnReceive P evt w).timers = w.timers := by
  unfold privateOnReceive receiveTry World.emit
  cases hp : P.jsonParse evt.data with
  | error m => cases h : w.ws.onReceive <;> simp [h]
  | ok data =>
    cases h : w.ws.onReceive with
    | none => simp
    | some f => cases hc : P.onReceiveCall f (.json data) <;> simp [h, hc]

theorem privateOnConnect_frame (evt : Event) (w : World) :
    (privateOnConnect evt w).ws = { w.ws with initStatus := 1 } ∧
    (privateOnConnect evt w).transports = w.transports ∧
    (privateOnConnect evt w).timers = w.timers := by
  unfold privateOnConnect World.emit
  cases h : w.ws.onConnect <;> simp [h]

theorem privateOnDisconnect_frame (w : World) :
    (privateOnDisconnect w).ws = { w.ws with reconnectTimer := some w.timers.length } ∧
    (privateOnDisconnect w).transports = w.transports ∧
    (privateOnDisconnect w).timers =
      w.timers ++ [{ interval := w.ws.reconnectInterval, armed := true }] := by
  unfold privateOnDisconnect reconnect World.emit
  split <;> simp

/-- What `connect` does to the fields of the manager. -/

theorem connect_initStatus (P : Platform) (b : Bool) (w : World) :
    (connect P b w).world.ws.initStatus =
      if w.ws.url ≠ "" ∧ w.ws.token ≠ "" ∧
          (P.newWebSocket (w.ws.url ++ "?token=" ++ w.ws.token)).toBool = false
      then -1 else w.ws.initStatus := by
  unfold connect
  by_cases hu : w.ws.url = ""
  · simp [hu, (privateOnError_frame _ _ _).1]
  · by_cases ht : w.ws.token = ""
    · simp [hu, ht, (privateOnError_frame _ _ _).1]
    · simp only [hu, ht, if_false]
      cases hc : P.newWebSocket (w.ws.url ++ "?token=" ++ w.ws.token) with
      | error m => simp [hu, ht, (privateOnError_frame _ _ _).1, Except.toBool]
      | ok u =>
        cases b <;> simp [World.onTransport, Except.toBool]

/-! ### Listeners registered by the manager -/

theorem bound_of_transports {w w' : World} (hb : Bound w) (h : w'.transports = w.transports) :
    Bound w' := by
  intro i tr hi
  rw [h] at hi
  exact hb i tr hi

theorem bound_onTransport {w : World} (hb : Bound w) (t : Nat) (f : Transport → Transport)
    (hf : ∀ tr, ∀ l ∈ (f tr).listeners, l ∈ tr.listeners ∨ l ∈ boundPairs) :
    Bound (w.onTransport t f) := by
  intro i tr hi l hl
  simp only [World.onTransport, List.getElem?_modify] at hi
  by_cases hti : t = i
  · subst hti
    simp only [if_true] at hi
    cases h0 : w.transports[t]? with
    | none => simp [h0] at hi
    | some tr0 =>
      simp [h0] at hi
      subst hi
      rcases hf tr0 l hl with h | h
      · exact hb t tr0 h0 l h
      · exact h
  · simp [hti] at hi
    exact hb i tr hi l hl

theorem addEventListener_listeners (k : EventKind) (h : Handler) (tr : Transport)
    (hk : (k, h) ∈ boundPairs) :
    ∀ l ∈ (Transport.addEventListener k h tr).listeners, l ∈ tr.listeners ∨ l ∈ boundPairs := by
  intro l hl
  unfold Transport.addEventListener at hl
  split at hl
  · exact Or.inl hl
  · simp only [List.mem_append, List.mem_singleton] at hl
    rcases hl with hl | hl
    · exact Or.inl hl
    · exact Or.inr (hl ▸ hk)

theorem removeEventListener_listeners (k : EventKind) (h : Handler) (tr : Transport) :
    ∀ l ∈ (Transport.removeEventListener k h tr).listeners, l ∈ tr.listeners ∨ l ∈ boundPairs := by
  intro l hl
  simp only [Transport.removeEventListener, List.mem_filter] at hl
  exact Or.inl hl.1

theorem bound_connect {w : World} (P : Platform) (b : Bool) (hb : Bound w) :
    Bound (connect P b w).world := by
  unfold connect
  by_cases hu : w.ws.url = ""
  · simp only [hu, if_true]
    exact bound_of_transports hb (privateOnError_frame _ _ _).2.1
  · by_cases ht : w.ws.token = ""
    · simp only [hu, ht, if_true, if_false]
      exact bound_of_transports hb (privateOnError_frame _ _ _).2.1
    · simp only [hu, ht, if_false]
      cases hc : P.newWebSocket (w.ws.url ++ "?token=" ++ w.ws.token) with
      | error m =>
        exact bound_of_transports hb (privateOnError_frame _ _ _).2.1
      | ok u =>
        have h2 : Bound
            { w with
              transports := w.transports ++ [Transport.fresh (w.ws.url ++ "?token=" ++ w.ws.token)]
              ws := { w.ws with
                socketUrl := w.ws.url ++ "?token=" ++ w.ws.token
                webSocket := some w.transports.length } } := by
          intro i tr hi l hl
          simp only [List.getElem?_append] at hi
          split at hi
          · exact hb i tr hi l hl
          · cases hj : i - w.transports.length with
            | zero =>
              simp [hj, Transport.fresh] at hi
              subst hi
              simp at hl
            | succ j => simp [hj] at hi
        cases b
        · exact h2
        · simp only [if_true]
          refine bound_onTransport (bound_onTransport (bound_onTransport (bound_onTransport h2
            _ _ ?_) _ _ ?_) _ _ ?_) _ _ ?_
          all_goals
            intro tr
            apply addEventListener_listeners
            decide

theorem bound_send {w : World} (P : Platform) (p : Json) (hb : Bound w) :
    Bound (send P p w).world := by
  unfold send
  split
  · split
    · split
      · exact bound_onTransport hb _ _ (fun tr l hl => Or.inl hl)
      · exact hb
    · exact hb
  · exact hb

theorem bound_close {w : World} (hb : Bound w) : Bound (close w).world := by
  have h1 : Bound (match w.ws.reconnectTimer with
      | some id => { clearInterval (some id) w with ws := { w.ws with reconnectTimer := none } }
      | none => w) := by
    cases w.ws.reconnectTimer with
    | none => exact hb
    | some id => exact bound_of_transports hb rfl
  unfold close
  simp only
  split
  · exact h1
  · refine bound_of_transports (bound_onTransport (bound_onTransport (bound_onTransport
      (bound_onTransport (bound_onTransport h1 _ _ ?_) _ _ ?_) _ _ ?_) _ _ ?_) _ _ ?_) rfl
    · exact removeEventListener_listeners _ _
    · exact removeEventListener_listeners _ _
    · exact removeEventListener_listeners _ _
    · exact removeEventListener_listeners _ _
    · intro tr l hl
      exact Or.inl hl

/-! ### Notifications and ticks -/

theorem invoke_transports (P : Platform) (h : Handler) (evt : Event) (w : World) :
    (invoke P h evt w).transports = w.transports := by
  cases h
  · exact (privateOnConnect_frame evt w).2.1
  · exact (privateOnDisconnect_frame w).2.1
  · exact (privateOnReceive_frame P evt w).2.1
  · exact (privateOnError_frame _ _ w).2.1

theorem invoke_initStatus (P : Platform) (h : Handler) (evt : Event) (w : World) :
    (invoke P h evt w).ws.initStatus = if h = .propOnConnect then 1 else w.ws.initStatus := by
  cases h
  · simp [invoke, (privateOnConnect_frame evt w).1]
  · simp [invoke, (privateOnDisconnect_frame w).1]
  · simp [invoke, (privateOnReceive_frame P evt w).1]
  · simp [invoke, (privateOnError_frame _ _ w).1]

theorem foldl_invoke_transports (P : Platform) (evt : Event) (hs : List Handler) (w : World) :
    (hs.foldl (fun acc h => invoke P h evt acc) w).transports = w.transports := by
  induction hs generalizing w with
  | nil => rfl
  | cons h hs ih => rw [List.foldl_cons, ih, invoke_transports]

theorem foldl_invoke_initStatus (P : Platform) (evt : Event) (hs : List Handler) (w : World) :
    (hs.foldl (fun acc h => invoke P h evt acc) w).ws.initStatus =
      if Handler.propOnConnect ∈ hs then 1 else w.ws.initStatus := by
  induction hs generalizing w with
  | nil => simp
  | cons h hs ih =>
    rw [List.foldl_cons, ih, invoke_initStatus]
    by_cases h1 : Handler.propOnConnect ∈ hs
    · simp [h1]
    · by_cases h2 : h = Handler.propOnConnect
      · simp [h2]
      · have h3 : ¬ Handler.propOnConnect = h := fun e => h2 e.symm
        simp [h1, h2, h3]

theorem notify_transports (P : Platform) (t : Nat) (k : EventKind) (d : String) (w : World) :
    (notify P t k d w).transports = w.transports.modify (Transport.noteEvent k) t := by
  unfold notify
  rw [foldl_invoke_transports]
  rfl

theorem notify_initStatus (P : Platform) (t : Nat) (k : EventKind) (d : String) (w : World) :
    (notify P t k d w).ws.initStatus =
      if Handler.propOnConnect ∈ listenersFor w t k then 1 else w.ws.initStatus := by
  unfold notify
  rw [foldl_invoke_initStatus]
  rfl

theorem noteEvent_listeners (k : EventKind) (tr : Transport) :
    (Transport.noteEvent k tr).listeners = tr.listeners := by
  cases k <;> rfl

theorem mem_listenersFor {w : World} {t : Nat} {k : EventKind} {h : Handler}
    (hm : h ∈ listenersFor w t k) :
    ∃ tr, w.transports[t]? = some tr ∧ (k, h) ∈ tr.listeners := by
  unfold listenersFor at hm
  cases htr : w.transports[t]? with
  | none => simp [htr] at hm
  | some tr =>
    simp only [htr, List.mem_map, List.mem_filter, decide_eq_true_eq] at hm
    obtain ⟨⟨k', h'⟩, ⟨hmem, hk⟩, hh⟩ := hm
    simp only at hk hh
    subst hk hh
    exact ⟨tr, rfl, hmem⟩

theorem bound_propOnConnect {w : World} (hb : Bound w) {t : Nat} {k : EventKind}
    (hm : Handler.propOnConnect ∈ listenersFor w t k) : k = .onOpen := by
  obtain ⟨tr, htr, hmem⟩ := mem_listenersFor hm
  have := hb t tr htr _ hmem
  cases k <;> simp [boundPairs] at this ⊢

theorem bound_notify {w : World} (P : Platform) (t : Nat) (k : EventKind) (d : String)
    (hb : Bound w) : Bound (notify P t k d w) := by
  apply bound_of_transports (bound_onTransport hb t (Transport.noteEvent k) ?_)
  · rw [notify_transports]
    rfl
  · intro tr l hl
    rw [noteEvent_listeners] at hl
    exact Or.inl hl

theorem bound_reconnectTick {w : World} (P : Platform) (hb : Bound w) :
    Bound (reconnectTick P w) := by
  unfold reconnectTick
  split
  · apply bound_of_transports hb
    cases w.ws.reconnectTimer <;> rfl
  · exact bound_connect P false hb

theorem bound_step {w : World} (P : Platform) (a : Action) (hb : Bound w) :
    Bound (step P w a) := by
  cases a with
  | connect b => exact bound_connect P b hb
  | status => exact hb
  | send p => exact bound_send P p hb
  | close => exact bound_close hb
  | notify t k d => exact bound_notify P t k d hb
  | tick id =>
    simp only [step, tick]
    split
    · exact bound_reconnectTick P hb
    · exact hb

theorem bound_run {w : World} (P : Platform) (actions : List Action) (hb : Bound w) :
    Bound (run P w actions) := by
  induction actions generalizing w with
  | nil => exact hb
  | cons a as ih => exact ih (bound_step P a hb)

theorem bound_init (options : Options) : Bound (World.init options) := by
  intro i tr hi
  simp [World.init] at hi

theorem send_ws (P : Platform) (p : Json) (w : World) : (send P p w).world.ws = w.ws := by
  unfold send
  split
  · split
    · split <;> rfl
    · rfl
  · rfl

/-- Without an open transport `send` does nothing, whatever the payload. -/
theorem send_of_not_open (P : Platform) (p : Json) {w : World} (hs : ¬ status w = 1) :
    send P p w = ⟨w, .ok ()⟩ := by
  simp [send, hs]

/-- With an open transport `send` hands over the text `JSON.stringify` returns. -/
theorem send_of_open (P : Platform) (p : Json) {w : World} {t : Nat} {text : String}
    (hs : status w = 1) (hws : w.ws.webSocket = some t)
    (hp : P.jsonStringify p = .ok text) :
    send P p w = ⟨w.onTransport t (Transport.send text), .ok ()⟩ := by
  simp [send, hs, hws, hp]

/-- With an open transport, what `JSON.stringify` throws leaves `send`. -/
theorem send_of_throw (P : Platform) (p : Json) {w : World} {t : Nat} {message : String}
    (hs : status w = 1) (hws : w.ws.webSocket = some t)
    (hp : P.jsonStringify p = .error message) :
    send P p w = ⟨w, .error message⟩ := by
  simp [send, hs, hws, hp]

theorem close_initStatus (w : World) : (close w).world.ws.initStatus = w.ws.initStatus := by
  unfold close
  cases w.ws.reconnectTimer <;> cases h : w.ws.webSocket <;> simp [h, clearInterval, World.onTransport]

theorem reconnectTick_initStatus (P : Platform) (w : World) :
    (reconnectTick P w).ws.initStatus =
      if w.ws.initStatus = 1 then 1 else (connect P false w).world.ws.initStatus := by
  unfold reconnectTick
  by_cases h : w.ws.initStatus = 1
  · simp [h]
    cases w.ws.reconnectTimer <;> simp [clearInterval, h]
  · simp [h]

/-! ### Quiescence -/

theorem quiet_listenersFor {w : World} (hq : Quiet w) (t : Nat) (k : EventKind) :
    listenersFor w t k = [] := by
  unfold listenersFor
  cases htr : w.transports[t]? with
  | none => rfl
  | some tr => simp [hq.2.2.1 t tr htr]

theorem quiet_step {w : World} (P : Platform) (a : Action) (hq : Quiet w)
    (ha : a.isHostEvent = true) :
    (step P w a).ws = w.ws ∧ (step P w a).timers = w.timers ∧ (step P w a).log = w.log ∧
    (step P w a).transports.length = w.transports.length ∧ Quiet (step P w a) := by
  cases a with
  | connect b => simp [Action.isHostEvent] at ha
  | status => simp [Action.isHostEvent] at ha
  | send p => simp [Action.isHostEvent] at ha
  | close => simp [Action.isHostEvent] at ha
  | notify t k d =>
    have he : step P w (.notify t k d) = w.onTransport t (Transport.noteEvent k) := by
      simp [step, notify, quiet_listenersFor hq]
    rw [he]
    refine ⟨rfl, rfl, rfl, by simp [World.onTransport], hq.1, hq.2.1, ?_, hq.2.2.2⟩
    intro i tr hi
    simp only [World.onTransport, List.getElem?_modify] at hi
    by_cases hti : t = i
    · subst hti
      cases h0 : w.transports[t]? with
      | none => simp [h0] at hi
      | some tr0 =>
        simp [h0] at hi
        subst hi
        rw [noteEvent_listeners]
        exact hq.2.2.1 t tr0 h0
    · simp [hti] at hi
      exact hq.2.2.1 i tr hi
  | tick id =>
    have he : step P w (.tick id) = w := by simp [step, tick, hq.2.2.2 id]
    rw [he]
    exact ⟨rfl, rfl, rfl, rfl, hq⟩

theorem quiet_run {w : World} (P : Platform) (events : List Action) (hq : Quiet w)
    (hev : ∀ a ∈ events, a.isHostEvent = true) :
    (run P w events).ws = w.ws ∧ (run P w events).timers = w.timers ∧
    (run P w events).log = w.log ∧
    (run P w events).transports.length = w.transports.length ∧ Quiet (run P w events) := by
  induction events generalizing w with
  | nil => exact ⟨rfl, rfl, rfl, rfl, hq⟩
  | cons a as ih =>
    have h1 := quiet_step P a hq (hev a (List.mem_cons_self a as))
    have h2 := ih h1.2.2.2.2 (fun b hb => hev b (List.mem_cons_of_mem a hb))
    simp only [run, List.foldl_cons] at h2 ⊢
    exact ⟨h2.1.trans h1.1, h2.2.1.trans h1.2.1, h2.2.2.1.trans h1.2.2.1,
      h2.2.2.2.1.trans h1.2.2.2.1, h2.2.2.2.2⟩

theorem close_world {w : World} {t : Nat} (hws : w.ws.webSocket = some t) :
    close w =
      ⟨{ ws := { w.ws with reconnectTimer := none, webSocket := none }
         transports := w.transports.modify Transport.teardown t
         timers := (clearInterval w.ws.reconnectTimer w).timers
         log := w.log }, .ok ()⟩ := by
  unfold close
  cases hrt : w.ws.reconnectTimer with
  | none =>
    simp only [hws, World.onTransport, List.modify_modify_eq, clearInterval, hrt]
    rfl
  | some id =>
    simp only [hws, World.onTransport, List.modify_modify_eq, clearInterval]
    rfl

theorem teardown_listeners {tr : Transport} (hb : ∀ l ∈ tr.listeners, l ∈ boundPairs) :
    (Transport.teardown tr).listeners = [] := by
  apply List.eq_nil_iff_forall_not_mem.2
  intro l hl
  simp only [Transport.teardown, Transport.close, Transport.removeEventListener,
    List.mem_filter, decide_eq_true_eq] at hl
  have := hb l hl.1.1.1.1
  simp only [boundPairs, List.mem_cons, List.mem_singleton, List.not_mem_nil, or_false] at this
  rcases this with h | h | h | h
  · exact hl.1.1.1.2 h
  · exact hl.1.1.2 h
  · exact hl.1.2 h
  · exact hl.2 h

theorem quiet_close {w : World} {t : Nat} (hb : Bound w) (hws : w.ws.webSocket = some t)
    (hl : ∀ (i : Nat) (tr : Transport), w.transports[i]? = some tr → tr.listeners ≠ [] → i = t)
    (htm : ∀ i : Nat, isArmed w i = true → w.ws.reconnectTimer = some i) :
    Quiet (close w).world := by
  rw [close_world hws]
  refine ⟨rfl, rfl, ?_, ?_⟩
  · intro i tr hi
    simp only [List.getElem?_modify] at hi
    by_cases hti : t = i
    · subst hti
      cases h0 : w.transports[t]? with
      | none => simp [h0] at hi
      | some tr0 =>
        simp [h0] at hi
        subst hi
        exact teardown_listeners (hb t tr0 h0)
    · simp [hti] at hi
      by_contra hne
      exact hti (hl i tr hi hne).symm
  · intro i
    cases hrt : w.ws.reconnectTimer with
    | none =>
      have := htm i
      simp only [hrt] at this
      simp only [clearInterval]
      cases h : isArmed w i
      · exact h
      · exact absurd (this h) (by simp)
    | some id =>
      simp only [clearInterval, isArmed, List.getElem?_modify]
      by_cases hid : id = i
      · subst hid
        cases h0 : w.timers[id]? <;> simp [h0]
      · simp only [hid, if_false]
        have := htm i
        simp only [hrt, isArmed, Option.some.injEq] at this
        cases h0 : w.timers[i]? with
        | none => rfl
        | some tm =>
          simp only [h0] at this ⊢
          cases h : tm.armed
          · simp [h]
          · exact absurd (this h) hid

theorem bound_of_reachable {P : Platform} {w : World} (h : Reachable P w) : Bound w := by
  obtain ⟨options, actions, rfl⟩ := h
  exact bound_run P actions (bound_init options)

theorem step_initStatus {w : World} (P : Platform) (a : Action) (hb : Bound w) :
    (step P w a).ws.initStatus = w.ws.initStatus ∨
    ((step P w a).ws.initStatus = 1 ∧ ∃ t d, a = .notify t .onOpen d) ∨
    ((step P w a).ws.initStatus = -1 ∧ ((∃ b, a = .connect b) ∨ ∃ id, a = .tick id) ∧
      (P.newWebSocket (w.ws.url ++ "?token=" ++ w.ws.token)).toBool = false) := by
  cases a with
  | connect b =>
    simp only [step, connect_initStatus]
    split
    · rename_i h
      exact Or.inr (Or.inr ⟨rfl, Or.inl ⟨b, rfl⟩, h.2.2⟩)
    · exact Or.inl rfl
  | status => exact Or.inl rfl
  | send p => exact Or.inl (by simp [step, send_ws])
  | close => exact Or.inl (close_initStatus w)
  | notify t k d =>
    simp only [step, notify_initStatus]
    split
    · rename_i h
      have hk := bound_propOnConnect hb h
      subst hk
      exact Or.inr (Or.inl ⟨rfl, t, d, rfl⟩)
    · exact Or.inl rfl
  | tick id =>
    simp only [step, tick]
    split
    · rw [reconnectTick_initStatus, connect_initStatus]
      by_cases h1 : w.ws.initStatus = 1
      · simp [h1]
      · simp only [h1, if_false]
        split
        · rename_i h
          exact Or.inr (Or.inr ⟨rfl, Or.inr ⟨id, rfl⟩, h.2.2⟩)
        · exact Or.inl rfl
    · exact Or.inl rfl

theorem initStatus_run (P : Platform) (actions : List Action) (w : World) (hb : Bound w)
    (h : w.ws.initStatus = 0 ∨ w.ws.initStatus = 1 ∨ w.ws.initStatus = -1) :
    (run P w actions).ws.initStatus = 0 ∨ (run P w actions).ws.initStatus = 1 ∨
      (run P w actions).ws.initStatus = -1 := by
  induction actions generalizing w with
  | nil => exact h
  | cons a as ih =>
    apply ih (step P w a) (bound_step P a hb)
    rcases step_initStatus P a hb with h1 | h1 | h1
    · rw [h1]; exact h
    · exact Or.inr (Or.inl h1.1)
    · exact Or.inr (Or.inr h1.1)

/-! ### The claims -/

/-- Claim C1: with an empty url or an empty token, `connect` (with either
flag) returns false, prints the error and calls the user `onError` callback,
when there is one, exactly once with the object of code `-1` and the message
`url can not be empty` (empty url) or `token can not be empty` (otherwise); it
creates no transport and no timer and changes no field of the manager. -/
theorem connect_missing_config (P : Platform) (isBindEvent : Bool) (w : World)
    (h : w.ws.url = "" ∨ w.ws.token = "") :
    (connect P isBindEvent w).ret = .ok false ∧
    (connect P isBindEvent w).world.log =
      w.log ++
        (Effect.consoleError
            (some (if w.ws.url = "" then "url can not be empty" else "token can not be empty"))
            (.errorObj (-1)
              (if w.ws.url = "" then "url can not be empty" else "token can not be empty")) ::
          (match w.ws.onError with
            | some f =>
              [Effect.call f
                [.errorObj (-1)
                  (if w.ws.url = "" then "url can not be empty" else "token can not be empty"),
                 .undefined]]
            | none => [])) ∧
    (connect P isBindEvent w).world.transports = w.transports ∧
    (connect P isBindEvent w).world.timers = w.timers ∧
    (connect P isBindEvent w).world.ws = w.ws := by
  unfold connect
  by_cases hu : w.ws.url = ""
  · simp only [hu, if_true, privateOnError, World.emit, Value.msg]
    cases hE : w.ws.onError <;> simp
  · have ht : w.ws.token = "" := h.resolve_left hu
    simp only [hu, ht, if_true, if_false, privateOnError, World.emit, Value.msg]
    cases hE : w.ws.onError <;> simp

/-- Instance of `connect_missing_config`: the sample manager without a url. -/
theorem connect_missing_config_witness :
    (World.init Options.noUrl).ws.url = "" ∧
    (connect Platform.plain true (World.init Options.noUrl)).ret = .ok false ∧
    (connect Platform.plain true (World.init Options.noUrl)).world.log =
      [Effect.consoleError (some "url can not be empty") (.errorObj (-1) "url can not be empty"),
       Effect.call 4 [.errorObj (-1) "url can not be empty", .undefined]] ∧
    (connect Platform.plain true (World.init Options.noUrl)).world.transports = [] ∧
    (connect Platform.plain true (World.init Options.noUrl)).world.ws =
      (World.init Options.noUrl).ws :=
  ⟨rfl,
   (connect_missing_config Platform.plain true (World.init Options.noUrl) (Or.inl rfl)).1,
   (connect_missing_config Platform.plain true (World.init Options.noUrl) (Or.inl rfl)).2.1,
   (connect_missing_config Platform.plain true (World.init Options.noUrl) (Or.inl rfl)).2.2.1,
   (connect_missing_config Platform.plain true (World.init Options.noUrl)
     (Or.inl rfl)).2.2.2.2⟩

/-- Claim C2, evaluated on the code: right after a successful `connect()` the
manager holds transport `0`, whose ready state is `0` (connecting), and
`status()` returns `-1`, not `0`. -/
theorem status_connecting :
    (connect Platform.plain true (World.init Options.sample)).ret = .ok true ∧
    (connect Platform.plain true (World.init Options.sample)).world.ws.webSocket = some 0 ∧
    ((connect Platform.plain true (World.init Options.sample)).world.transports[0]?).map
      Transport.readyState = some 0 ∧
    status (connect Platform.plain true (World.init Options.sample)).world = -1 :=
  ⟨rfl, by decide, by decide, by decide⟩

/-- Claim C3: for a payload that `JSON.stringify` serializes to `text`, `send`
returns normally and changes nothing but the transport held in `webSocket`;
that transport receives exactly one more message, `text`, when its ready state
is `1`, and nothing otherwise; with no transport nothing is forwarded.  The
fields of the manager, the timers and the log are unchanged. -/
theorem send_spec (P : Platform) (params : Json) (text : String) (w : World)
    (hp : P.jsonStringify params = .ok text) :
    (send P params w).ret = .ok () ∧
    (send P params w).world.transports =
      (match w.ws.webSocket with
        | some t =>
          w.transports.modify
            (fun tr => if tr.readyState = 1 then { tr with sent := tr.sent ++ [text] } else tr) t
        | none => w.transports) ∧
    (send P params w).world.ws = w.ws ∧
    (send P params w).world.timers = w.timers ∧
    (send P params w).world.log = w.log := by
  by_cases hs : status w = 1
  · obtain ⟨t, tr, hws, htr, h1⟩ := (status_eq_one_iff w).1 hs
    rw [send_of_open P params hs hws hp, hws]
    refine ⟨rfl, ?_, rfl, rfl, rfl⟩
    apply modify_congr_at
    intro a ha
    rw [htr] at ha
    cases ha
    simp [Transport.send, h1]
  · rw [send_of_not_open P params hs]
    refine ⟨rfl, ?_, rfl, rfl, rfl⟩
    cases hws : w.ws.webSocket with
    | none => rfl
    | some t =>
      symm
      apply modify_eq_of_fix
      intro a ha
      have : ¬ a.readyState = 1 := fun h1 => hs ((status_eq_one_iff w).2 ⟨t, a, hws, ha, h1⟩)
      simp [this]

/-- Instance of `send_spec`: `send({a:1})` on the sample manager, once with its
transport open and once before `connect()`, on a host that writes `{a:1}` as
`{"a":1}`. -/
theorem send_spec_witness :
    Platform.plain.jsonStringify (.obj [("a", .num 1)]) = .ok "\x7b\"a\":1\x7d" ∧
    status World.sampleOpen = 1 ∧
    (send Platform.plain (.obj [("a", .num 1)]) World.sampleOpen).ret = .ok () ∧
    (send Platform.plain (.obj [("a", .num 1)]) World.sampleOpen).world.transports.map
      Transport.sent = [["\x7b\"a\":1\x7d"]] ∧
    (send Platform.plain (.obj [("a", .num 1)]) World.sampleOpen).world.ws =
      World.sampleOpen.ws ∧
    (send Platform.plain (.obj [("a", .num 1)]) (World.init Options.sample)).ret = .ok () ∧
    (send Platform.plain (.obj [("a", .num 1)]) (World.init Options.sample)).world.transports =
      [] :=
  ⟨rfl, by decide,
   (send_spec Platform.plain (.obj [("a", .num 1)]) "\x7b\"a\":1\x7d" World.sampleOpen rfl).1,
   by decide,
   (send_spec Platform.plain (.obj [("a", .num 1)]) "\x7b\"a\":1\x7d" World.sampleOpen
     rfl).2.2.1,
   (send_spec Platform.plain (.obj [("a", .num 1)]) "\x7b\"a\":1\x7d"
     (World.init Options.sample) rfl).1,
   (send_spec Platform.plain (.obj [("a", .num 1)]) "\x7b\"a\":1\x7d"
     (World.init Options.sample) rfl).2.1⟩

/-- Claim C4: when the manager holds transport `t`, `close()` returns normally
and afterwards `reconnectTimer` is null, the timer it referenced is no longer
armed, `webSocket` is null, `close()` has been called on `t` once more than
before, and none of the four registrations of the manager is left on `t`; when
`t` carried nothing but such registrations, it carries no listener at all. -/
theorem close_spec (w : World) (t : Nat) (tr : Transport)
    (hws : w.ws.webSocket = some t) (htr : w.transports[t]? = some tr) :
    (close w).ret = .ok () ∧
    (close w).world.ws.reconnectTimer = none ∧
    (∀ id, w.ws.reconnectTimer = some id → isArmed (close w).world id = false) ∧
    (close w).world.ws.webSocket = none ∧
    ∃ tr', (close w).world.transports[t]? = some tr' ∧
      tr'.closeCalls = tr.closeCalls + 1 ∧
      (EventKind.onOpen, Handler.propOnConnect) ∉ tr'.listeners ∧
      (EventKind.onClose, Handler.propOnDisConnect) ∉ tr'.listeners ∧
      (EventKind.onMessage, Handler.propOnReceive) ∉ tr'.listeners ∧
      (EventKind.onError, Handler.propOnError) ∉ tr'.listeners ∧
      ((∀ l ∈ tr.listeners, l ∈ boundPairs) → tr'.listeners = []) := by
  have hw := close_world hws
  have ht' : (close w).world.transports[t]? = some (Transport.teardown tr) := by
    rw [hw]
    simp [htr]
  refine ⟨by rw [hw], by rw [hw], ?_, by rw [hw], Transport.teardown tr, ht', rfl,
    ?_, ?_, ?_, ?_, teardown_listeners⟩
  · intro id hid
    rw [hw]
    simp only [hid, clearInterval, isArmed, List.getElem?_modify_eq]
    cases h : w.timers[id]? <;> simp
  all_goals
    simp [Transport.teardown, Transport.close, Transport.removeEventListener, List.mem_filter]

/-- Instance of `close_spec`: `close()` right after `connect()` on the sample
manager. -/
theorem close_spec_witness :
    World.sampleConnected.ws.webSocket = some 0 ∧
    World.sampleConnected.transports[0]? =
      some { url := "wss://x?token=t", readyState := 0, listeners := boundPairs, sent := [],
             closeCalls := 0 } ∧
    (close World.sampleConnected).ret = .ok () ∧
    (close World.sampleConnected).world.ws.reconnectTimer = none ∧
    (∀ id, World.sampleConnected.ws.reconnectTimer = some id →
      isArmed (close World.sampleConnected).world id = false) ∧
    (close World.sampleConnected).world.ws.webSocket = none ∧
    ∃ tr', (close World.sampleConnected).world.transports[0]? = some tr' ∧
      tr'.closeCalls = 0 + 1 ∧
      (EventKind.onOpen, Handler.propOnConnect) ∉ tr'.listeners ∧
      (EventKind.onClose, Handler.propOnDisConnect) ∉ tr'.listeners ∧
      (EventKind.onMessage, Handler.propOnReceive) ∉ tr'.listeners ∧
      (EventKind.onError, Handler.propOnError) ∉ tr'.listeners ∧
      ((∀ l ∈ boundPairs, l ∈ boundPairs) → tr'.listeners = []) :=
  ⟨rfl, rfl,
   close_spec World.sampleConnected 0
     { url := "wss://x?token=t", readyState := 0, listeners := boundPairs, sent := [],
       closeCalls := 0 } rfl rfl⟩

/-- Claim C5, evaluated on the code: `close()` on a freshly constructed manager
throws a TypeError (`this.webSocket` is null), and so does the second of two
`close()` calls in a row after a successful `connect()`; the first one
returns normally and the second one leaves the fields as the first left them. -/
theorem close_without_transport_throws :
    (World.init Options.sample).ws.webSocket = none ∧
    (close (World.init Options.sample)).ret = .error "TypeError: this.webSocket is null" ∧
    (close (connect Platform.plain true (World.init Options.sample)).world).ret = .ok () ∧
    (close (close (connect Platform.plain true (World.init Options.sample)).world).world).ret =
      .error "TypeError: this.webSocket is null" ∧
    (close (close (connect Platform.plain true (World.init Options.sample)).world).world).world.ws =
      (close (connect Platform.plain true (World.init Options.sample)).world).world.ws :=
  ⟨rfl, rfl, rfl, rfl, rfl⟩

/-- Claim C6 fails as stated: after `connect(); connect(); close()` the first
transport still carries the listeners of the manager.  When it then delivers a
close notification the disconnect handler runs and arms a timer
(`reconnectTimer` is non-null again), and the first tick of that timer
constructs a third transport and stores it in `webSocket`.  Likewise, when both
transports delivered a close notification before `close()`, two timers are
armed, `close()` clears only the second, and a tick of the first constructs a
third transport. -/
theorem close_not_quiescent :
    (close (run Platform.plain (World.init Options.sample)
      [.connect true, .connect true])).ret = .ok () ∧
    (close (run Platform.plain (World.init Options.sample)
      [.connect true, .connect true])).world.ws.webSocket = none ∧
    (close (run Platform.plain (World.init Options.sample)
      [.connect true, .connect true])).world.ws.reconnectTimer = none ∧
    (close (run Platform.plain (World.init Options.sample)
      [.connect true, .connect true])).world.transports.length = 2 ∧
    listenersFor (close (run Platform.plain (World.init Options.sample)
      [.connect true, .connect true])).world 0 .onClose = [.propOnDisConnect] ∧
    (run Platform.plain (close (run Platform.plain (World.init Options.sample)
      [.connect true, .connect true])).world
      [.notify 0 .onClose ""]).ws.reconnectTimer = some 0 ∧
    (run Platform.plain (close (run Platform.plain (World.init Options.sample)
      [.connect true, .connect true])).world
      [.notify 0 .onClose "", .tick 0]).transports.length = 3 ∧
    (run Platform.plain (close (run Platform.plain (World.init Options.sample)
      [.connect true, .connect true])).world
      [.notify 0 .onClose "", .tick 0]).ws.webSocket = some 2 ∧
    (close (run Platform.plain (World.init Options.sample)
      [.connect true, .connect true, .notify 0 .onClose "", .notify 1 .onClose ""])).ret =
        .ok () ∧
    (close (run Platform.plain (World.init Options.sample)
      [.connect true, .connect true, .notify 0 .onClose "",
       .notify 1 .onClose ""])).world.timers.map Timer.armed = [true, false] ∧
    (run Platform.plain (close (run Platform.plain (World.init Options.sample)
      [.connect true, .connect true, .notify 0 .onClose "", .notify 1 .onClose ""])).world
      [.tick 0]).transports.length = 3 ∧
    (run Platform.plain (close (run Platform.plain (World.init Options.sample)
      [.connect true, .connect true, .notify 0 .onClose "", .notify 1 .onClose ""])).world
      [.tick 0]).ws.webSocket = some 2 :=
  ⟨rfl, by decide, by decide, by decide, by decide, by decide, by decide, by decide,
   rfl, by decide, by decide, by decide⟩

/-- Claim C6, amended: in a reachable state where the manager holds a transport,
no other transport carries a listener and no timer other than the one in
`reconnectTimer` is armed, `close()` returns normally and the manager is
quiescent afterwards: whatever notifications and ticks follow, no listener is
registered on any transport (so no handler runs and nothing is printed), no
timer is armed, no transport is constructed, and the fields of the manager, with
`webSocket` and `reconnectTimer` null, stay as `close()` left them. -/
theorem close_quiescent (P : Platform) (w : World) (t : Nat) (events : List Action)
    (hr : Reachable P w) (hws : w.ws.webSocket = some t)
    (hl : ∀ (i : Nat) (tr : Transport), w.transports[i]? = some tr → tr.listeners ≠ [] → i = t)
    (htm : ∀ i : Nat, isArmed w i = true → w.ws.reconnectTimer = some i)
    (hev : ∀ a ∈ events, a.isHostEvent = true) :
    (close w).ret = .ok () ∧
    (run P (close w).world events).ws = (close w).world.ws ∧
    (run P (close w).world events).ws.webSocket = none ∧
    (run P (close w).world events).ws.reconnectTimer = none ∧
    (run P (close w).world events).transports.length = w.transports.length ∧
    (run P (close w).world events).timers = (close w).world.timers ∧
    (run P (close w).world events).log = w.log ∧
    (∀ (i : Nat) (k : EventKind), listenersFor (run P (close w).world events) i k = []) ∧
    (∀ i : Nat, isArmed (run P (close w).world events) i = false) := by
  have hq := quiet_close (bound_of_reachable hr) hws hl htm
  have h := quiet_run P events hq hev
  refine ⟨by rw [close_world hws], h.1, h.2.2.2.2.1, h.2.2.2.2.2.1, ?_, h.2.1, ?_,
    fun i k => quiet_listenersFor h.2.2.2.2 i k, h.2.2.2.2.2.2.2⟩
  · rw [h.2.2.2.1, close_world hws]
    simp
  · rw [h.2.2.1, close_world hws]

/-- Instance of `close_quiescent`: `connect()`, a close notification, then
`close()` followed by a tick, an open and a message notification. -/
theorem close_quiescent_witness :
    Reachable Platform.plain World.sampleDropped ∧
    World.sampleDropped.ws.webSocket = some 0 ∧
    World.sampleDropped.ws.reconnectTimer = some 0 ∧
    isArmed World.sampleDropped 0 = true ∧
    (close World.sampleDropped).ret = .ok () ∧
    (run Platform.plain (close World.sampleDropped).world
      [.tick 0, .notify 0 .onOpen "", .notify 0 .onMessage "x"]).ws =
        (close World.sampleDropped).world.ws ∧
    (run Platform.plain (close World.sampleDropped).world
      [.tick 0, .notify 0 .onOpen "", .notify 0 .onMessage "x"]).ws.webSocket = none ∧
    (run Platform.plain (close World.sampleDropped).world
      [.tick 0, .notify 0 .onOpen "", .notify 0 .onMessage "x"]).ws.reconnectTimer = none ∧
    (run Platform.plain (close World.sampleDropped).world
      [.tick 0, .notify 0 .onOpen "", .notify 0 .onMessage "x"]).transports.length =
        World.sampleDropped.transports.length ∧
    (run Platform.plain (close World.sampleDropped).world
      [.tick 0, .notify 0 .onOpen "", .notify 0 .onMessage "x"]).timers =
        (close World.sampleDropped).world.timers ∧
    (run Platform.plain (close World.sampleDropped).world
      [.tick 0, .notify 0 .onOpen "", .notify 0 .onMessage "x"]).log =
        World.sampleDropped.log ∧
    (∀ (i : Nat) (k : EventKind),
      listenersFor (run Platform.plain (close World.sampleDropped).world
        [.tick 0, .notify 0 .onOpen "", .notify 0 .onMessage "x"]) i k = []) ∧
    (∀ i : Nat,
      isArmed (run Platform.plain (close World.sampleDropped).world
        [.tick 0, .notify 0 .onOpen "", .notify 0 .onMessage "x"]) i = false) := by
  have hlen : World.sampleDropped.transports.length = 1 := by decide
  have htl : World.sampleDropped.timers.length = 1 := by decide
  refine ⟨⟨Options.sample, _, rfl⟩, by decide, by decide, by decide,
    close_quiescent Platform.plain World.sampleDropped 0
      [.tick 0, .notify 0 .onOpen "", .notify 0 .onMessage "x"]
      ⟨Options.sample, _, rfl⟩ (by decide) ?_ ?_ (by decide)⟩
  · intro i tr hi _
    have := (List.getElem?_eq_some.1 hi).1
    omega
  · intro i hi
    unfold isArmed at hi
    cases h0 : World.sampleDropped.timers[i]? with
    | none => simp [h0] at hi
    | some tm =>
      have := (List.getElem?_eq_some.1 h0).1
      have hi0 : i = 0 := by omega
      subst hi0
      decide

/-- Claim C7, evaluated on the code: after `connect(); connect()` and a close
notification from each of the two transports, two timers created by the
manager are armed and `reconnectTimer` references the second one only.  If the
first transport had opened before, a tick of the first timer clears the second
timer and nulls `reconnectTimer` while the first timer stays armed. -/
theorem two_close_notifications_two_timers :
    (run Platform.plain (World.init Options.sample)
      [.connect true, .connect true, .notify 0 .onClose "", .notify 1 .onClose ""]).timers.map
        Timer.armed = [true, true] ∧
    (run Platform.plain (World.init Options.sample)
      [.connect true, .connect true, .notify 0 .onClose "",
       .notify 1 .onClose ""]).ws.reconnectTimer = some 1 ∧
    (run Platform.plain (World.init Options.sample)
      [.connect true, .connect true, .notify 0 .onOpen "", .notify 0 .onClose "",
       .notify 1 .onClose "", .tick 0]).timers.map Timer.armed = [true, false] ∧
    (run Platform.plain (World.init Options.sample)
      [.connect true, .connect true, .notify 0 .onOpen "", .notify 0 .onClose "",
       .notify 1 .onClose "", .tick 0]).ws.reconnectTimer = none :=
  ⟨by decide, by decide, by decide, by decide⟩

/-- Claim C8: `initStatus` is `0` after construction and is `0`, `1` or `-1` in
every reachable state.  The open handler sets it to `1`; `connect` sets it to
`-1` exactly when url and token are non-empty and the construction throws, and
leaves it unchanged otherwise; `send`, `close`, the close, message and error
handlers leave it unchanged; a tick leaves it at `1` when it is `1` and is
`connect(false)` otherwise.  In a reachable state a step changes it only to
`1`, by an open notification, or to `-1`, by a `connect` call or a tick whose
construction throws (`status` is a step that changes nothing). -/
theorem initStatus_transitions (P : Platform) :
    (∀ options : Options, (World.init options).ws.initStatus = 0) ∧
    (∀ w : World, Reachable P w →
      w.ws.initStatus = 0 ∨ w.ws.initStatus = 1 ∨ w.ws.initStatus = -1) ∧
    (∀ (evt : Event) (w : World), (privateOnConnect evt w).ws.initStatus = 1) ∧
    (∀ (b : Bool) (w : World),
      (connect P b w).world.ws.initStatus =
        if w.ws.url ≠ "" ∧ w.ws.token ≠ "" ∧
            (P.newWebSocket (w.ws.url ++ "?token=" ++ w.ws.token)).toBool = false
        then -1 else w.ws.initStatus) ∧
    (∀ (params : Json) (w : World), (send P params w).world.ws.initStatus = w.ws.initStatus) ∧
    (∀ w : World, (close w).world.ws.initStatus = w.ws.initStatus) ∧
    (∀ w : World,
      (reconnectTick P w).ws.initStatus =
        if w.ws.initStatus = 1 then 1 else (connect P false w).world.ws.initStatus) ∧
    (∀ w : World, (privateOnDisconnect w).ws.initStatus = w.ws.initStatus) ∧
    (∀ (evt : Event) (w : World), (privateOnReceive P evt w).ws.initStatus = w.ws.initStatus) ∧
    (∀ (error evt : Value) (w : World),
      (privateOnError error evt w).ws.initStatus = w.ws.initStatus) ∧
    (∀ (w : World) (a : Action), Reachable P w →
      (step P w a).ws.initStatus = w.ws.initStatus ∨
      ((step P w a).ws.initStatus = 1 ∧ ∃ t d, a = .notify t .onOpen d) ∨
      ((step P w a).ws.initStatus = -1 ∧ ((∃ b, a = .connect b) ∨ ∃ id, a = .tick id) ∧
        (P.newWebSocket (w.ws.url ++ "?token=" ++ w.ws.token)).toBool = false)) := by
  refine ⟨fun _ => rfl, ?_, ?_, connect_initStatus P, ?_, close_initStatus,
    reconnectTick_initStatus P, ?_, ?_, ?_, ?_⟩
  · rintro w ⟨options, actions, rfl⟩
    exact initStatus_run P actions _ (bound_init options) (Or.inl rfl)
  · intro evt w
    rw [(privateOnConnect_frame evt w).1]
  · intro p w
    rw [send_ws]
  · intro w
    rw [(privateOnDisconnect_frame w).1]
  · intro evt w
    rw [(privateOnReceive_frame P evt w).1]
  · intro e v w
    rw [(privateOnError_frame e v w).1]
  · intro w a hr
    exact step_initStatus P a (bound_of_reachable hr)

/-- Claim C9, evaluated on the code: with url `wss://x`, token `t` and interval
1000, `connect()` returns true; after an open and then a close notification a
timer is armed, but its first tick finds `initStatus` equal to `1`, clears the
timer and returns: no transport is constructed (there is still exactly one) and
further ticks do nothing. -/
theorem no_retry_after_open :
    (connect Platform.plain true (World.init Options.sample)).ret = .ok true ∧
    (run Platform.plain (World.init Options.sample)
      [.connect true, .notify 0 .onOpen "", .notify 0 .onClose ""]).ws.initStatus = 1 ∧
    (run Platform.plain (World.init Options.sample)
      [.connect true, .notify 0 .onOpen "", .notify 0 .onClose ""]).timers.map Timer.armed =
        [true] ∧
    (run Platform.plain (World.init Options.sample)
      [.connect true, .notify 0 .onOpen "", .notify 0 .onClose ""]).transports.length = 1 ∧
    (run Platform.plain (World.init Options.sample)
      [.connect true, .notify 0 .onOpen "", .notify 0 .onClose "",
       .tick 0]).transports.length = 1 ∧
    (run Platform.plain (World.init Options.sample)
      [.connect true, .notify 0 .onOpen "", .notify 0 .onClose "",
       .tick 0]).timers.map Timer.armed = [false] ∧
    (run Platform.plain (World.init Options.sample)
      [.connect true, .notify 0 .onOpen "", .notify 0 .onClose "",
       .tick 0, .tick 0, .tick 0]).transports.length = 1 :=
  ⟨rfl, by decide, by decide, by decide, by decide, by decide, by decide⟩

/-- Claim C10, evaluated on the code: on a manager that has opened once, a close
notification leaves `reconnectTimer` non-null, and the next timer tick nulls
it again although no open notification was handled after the close
notification and `close()` was not called. -/
theorem timer_cleared_without_open :
    (run Platform.plain (World.init Options.sample)
      [.connect true, .notify 0 .onOpen ""]).ws.reconnectTimer = none ∧
    (run Platform.plain (World.init Options.sample)
      [.connect true, .notify 0 .onOpen "", .notify 0 .onClose ""]).ws.reconnectTimer =
        some 0 ∧
    (run Platform.plain (World.init Options.sample)
      [.connect true, .notify 0 .onOpen "", .notify 0 .onClose "",
       .tick 0]).ws.reconnectTimer = none :=
  ⟨by decide, by decide, by decide⟩

/-! ### The claims on messages, connection and ownership -/

/-- What `privateOnReceive` prints and whom it calls, in every case. -/
theorem privateOnReceive_log (P : Platform) (evt : Event) (w : World) :
    (privateOnReceive P evt w).log =
      w.log ++
        (match w.ws.onReceive with
          | none =>
            (match P.jsonParse evt.data with
              | .ok _ => []
              | .error message => [Effect.consoleWarn message])
          | some f =>
            (match P.jsonParse evt.data with
              | .error message => [Effect.consoleWarn message, Effect.call f [.text evt.data]]
              | .ok data =>
                (match P.onReceiveCall f (.json data) with
                  | .ok () => [Effect.call f [.json data]]
                  | .error message =>
                    [Effect.call f [.json data], Effect.consoleWarn message,
                     Effect.call f [.text evt.data]]))) := by
  unfold privateOnReceive receiveTry World.emit
  cases hp : P.jsonParse evt.data with
  | error m => cases h : w.ws.onReceive <;> simp [h]
  | ok data =>
    cases h : w.ws.onReceive with
    | none => simp
    | some f => cases hc : P.onReceiveCall f (.json data) <;> simp [h, hc]

/-- Claim C11 fails as stated: the call of `onReceive` with the decoded value is
inside the `try` block, so when that call throws, the `catch` block prints the
message of the callback and calls `onReceive` a second time, with the text. -/
theorem receive_callback_invoked_twice :
    (World.init Options.sample).ws.onReceive = some 3 ∧
    Platform.throwing.jsonParse "1" = .ok (.num 1) ∧
    Platform.throwing.onReceiveCall 3 (.json (.num 1)) = .error "the callback failed" ∧
    (privateOnReceive Platform.throwing ⟨.onMessage, 0, "1"⟩ (World.init Options.sample)).log =
      [Effect.call 3 [.json (.num 1)], Effect.consoleWarn "the callback failed",
       Effect.call 3 [.text "1"]] ∧
    (run Platform.throwing (World.init Options.sample)
      [.connect true, .notify 0 .onMessage "1"]).log =
      [Effect.call 3 [.json (.num 1)], Effect.consoleWarn "the callback failed",
       Effect.call 3 [.text "1"]] :=
  ⟨rfl, rfl, rfl, rfl, rfl⟩

/-- Claim C11, amended: with an `onReceive` callback supplied whose call with a
decoded value returns, the message handler calls it exactly once: with the
decoded value when `JSON.parse` accepts the text of the event, and with the
text itself, after one `console.warn`, when `JSON.parse` throws.  Nothing else
is printed or called (in particular not `onError`) and the fields of the
manager, the transports and the timers are unchanged.  The message listener is
this handler. -/
theorem receive_spec (P : Platform) (evt : Event) (w : World) (f : Nat)
    (hf : w.ws.onReceive = some f)
    (hcall : ∀ data : Json, P.jsonParse evt.data = .ok data →
      P.onReceiveCall f (.json data) = .ok ()) :
    (privateOnReceive P evt w).log =
      w.log ++
        (match P.jsonParse evt.data with
          | .ok data => [Effect.call f [.json data]]
          | .error message => [Effect.consoleWarn message, Effect.call f [.text evt.data]]) ∧
    (privateOnReceive P evt w).ws = w.ws ∧
    (privateOnReceive P evt w).transports = w.transports ∧
    (privateOnReceive P evt w).timers = w.timers ∧
    invoke P .propOnReceive evt w = privateOnReceive P evt w := by
  refine ⟨?_, (privateOnReceive_frame P evt w).1, (privateOnReceive_frame P evt w).2.1,
    (privateOnReceive_frame P evt w).2.2, rfl⟩
  rw [privateOnReceive_log, hf]
  cases hp : P.jsonParse evt.data with
  | error m => rfl
  | ok data => simp [hcall data hp]

/-- Instance of `receive_spec`: the texts `1` and `hello` on a host that decodes
only `1` and whose callback returns. -/
theorem receive_spec_witness :
    (World.init Options.sample).ws.onReceive = some 3 ∧
    Platform.decoding.onReceiveCall 3 (.json (.num 1)) = .ok () ∧
    (privateOnReceive Platform.decoding ⟨.onMessage, 0, "1"⟩ (World.init Options.sample)).log =
      [Effect.call 3 [.json (.num 1)]] ∧
    (privateOnReceive Platform.decoding ⟨.onMessage, 0, "hello"⟩ (World.init Options.sample)).log =
      [Effect.consoleWarn "Unexpected token", Effect.call 3 [.text "hello"]] ∧
    (privateOnReceive Platform.decoding ⟨.onMessage, 0, "hello"⟩ (World.init Options.sample)).ws =
      (World.init Options.sample).ws :=
  ⟨rfl, rfl,
   (receive_spec Platform.decoding ⟨.onMessage, 0, "1"⟩ (World.init Options.sample) 3 rfl
     (fun _ _ => rfl)).1,
   (receive_spec Platform.decoding ⟨.onMessage, 0, "hello"⟩ (World.init Options.sample) 3 rfl
     (fun _ _ => rfl)).1,
   (receive_spec Platform.decoding ⟨.onMessage, 0, "hello"⟩ (World.init Options.sample) 3 rfl
     (fun _ _ => rfl)).2.1⟩

theorem modify_length_append {α : Type} (f : α → α) (l : List α) (a : α) :
    (l ++ [a]).modify f l.length = l ++ [f a] := by
  induction l with
  | nil => rfl
  | cons x xs ih => simp [ih]

/-- The world `connect` leaves when the construction succeeds. -/
theorem connect_ok {P : Platform} {w : World} (b : Bool) (hu : w.ws.url ≠ "")
    (ht : w.ws.token ≠ "")
    (hc : P.newWebSocket (w.ws.url ++ "?token=" ++ w.ws.token) = .ok ()) :
    connect P b w =
      ⟨{ ws := { w.ws with
            socketUrl := w.ws.url ++ "?token=" ++ w.ws.token
            webSocket := some w.transports.length }
         transports := w.transports ++
           [{ url := w.ws.url ++ "?token=" ++ w.ws.token
              readyState := 0
              listeners := if b then boundPairs else []
              sent := []
              closeCalls := 0 }]
         timers := w.timers
         log := w.log }, .ok true⟩ := by
  unfold connect
  simp only [hu, ht, if_false, hc]
  cases b
  · rfl
  · simp only [if_true, World.onTransport, List.modify_modify_eq, modify_length_append]
    rfl

/-- The world `connect` leaves when the construction throws. -/
theorem connect_error {P : Platform} {w : World} (b : Bool) {message : String}
    (hu : w.ws.url ≠ "") (ht : w.ws.token ≠ "")
    (hc : P.newWebSocket (w.ws.url ++ "?token=" ++ w.ws.token) = .error message) :
    connect P b w =
      ⟨privateOnError (.errorObj (-1) message) .undefined
        { w with ws := { w.ws with
            socketUrl := w.ws.url ++ "?token=" ++ w.ws.token
            initStatus := -1 } }, .ok false⟩ := by
  unfold connect
  simp only [hu, ht, if_false, hc]


/-- What `privateOnError` prints and whom it calls. -/
theorem privateOnError_log (error evt : Value) (w : World) :
    (privateOnError error evt w).log =
      w.log ++
        (Effect.consoleError error.msg error ::
          (match w.ws.onError with
            | some f => [Effect.call f [error, evt]]
            | none => [])) := by
  unfold privateOnError World.emit
  cases hE : w.ws.onError <;> simp [hE]

/-- Claim C12: with non-empty url and token and a construction that succeeds,
`connect` (with either flag) returns true, appends exactly one transport, whose
url is `url ++ "?token=" ++ token`, stores that url in `socketUrl` and the new
handle in `webSocket`, prints nothing and calls no callback, and changes
neither `initStatus` nor any other field or timer. -/
theorem connect_success (P : Platform) (isBindEvent : Bool) (w : World)
    (hu : w.ws.url ≠ "") (ht : w.ws.token ≠ "")
    (hc : P.newWebSocket (w.ws.url ++ "?token=" ++ w.ws.token) = .ok ()) :
    (connect P isBindEvent w).ret = .ok true ∧
    (connect P isBindEvent w).world.transports =
      w.transports ++
        [{ url := w.ws.url ++ "?token=" ++ w.ws.token
           readyState := 0
           listeners := if isBindEvent then boundPairs else []
           sent := []
           closeCalls := 0 }] ∧
    (connect P isBindEvent w).world.ws.socketUrl = w.ws.url ++ "?token=" ++ w.ws.token ∧
    (connect P isBindEvent w).world.ws.webSocket = some w.transports.length ∧
    (connect P isBindEvent w).world.log = w.log ∧
    (connect P isBindEvent w).world.ws.initStatus = w.ws.initStatus ∧
    (connect P isBindEvent w).world.timers = w.timers ∧
    (connect P isBindEvent w).world.ws =
      { w.ws with
        socketUrl := w.ws.url ++ "?token=" ++ w.ws.token
        webSocket := some w.transports.length } := by
  rw [connect_ok isBindEvent hu ht hc]
  exact ⟨rfl, rfl, rfl, rfl, rfl, rfl, rfl, rfl⟩

/-- Instance of `connect_success`: `connect()` on the sample manager. -/
theorem connect_success_witness :
    (World.init Options.sample).ws.url ≠ "" ∧
    (World.init Options.sample).ws.token ≠ "" ∧
    (connect Platform.plain true (World.init Options.sample)).ret = .ok true ∧
    (connect Platform.plain true (World.init Options.sample)).world.transports =
      [{ url := "wss://x?token=t", readyState := 0, listeners := boundPairs, sent := [],
         closeCalls := 0 }] ∧
    (connect Platform.plain true (World.init Options.sample)).world.ws.socketUrl =
      "wss://x?token=t" ∧
    (connect Platform.plain true (World.init Options.sample)).world.ws.webSocket = some 0 ∧
    (connect Platform.plain true (World.init Options.sample)).world.log = [] ∧
    (connect Platform.plain true (World.init Options.sample)).world.ws.initStatus = 0 :=
  ⟨by decide, by decide,
   (connect_success Platform.plain true (World.init Options.sample) (by decide) (by decide)
     rfl).1,
   (connect_success Platform.plain true (World.init Options.sample) (by decide) (by decide)
     rfl).2.1,
   (connect_success Platform.plain true (World.init Options.sample) (by decide) (by decide)
     rfl).2.2.1,
   (connect_success Platform.plain true (World.init Options.sample) (by decide) (by decide)
     rfl).2.2.2.1,
   (connect_success Platform.plain true (World.init Options.sample) (by decide) (by decide)
     rfl).2.2.2.2.1,
   (connect_success Platform.plain true (World.init Options.sample) (by decide) (by decide)
     rfl).2.2.2.2.2.1⟩

/-- Claim C13: with non-empty url and token, when `new WebSocket` throws with
message `m`, `connect` returns false, sets `initStatus` to `-1`, prints the
error and calls the user `onError` callback, when there is one, exactly once
with the object of code `-1` and message `m`; no transport is created and
`webSocket` keeps its value. -/
theorem connect_construction_failure (P : Platform) (isBindEvent : Bool) (w : World)
    (message : String) (hu : w.ws.url ≠ "") (ht : w.ws.token ≠ "")
    (hc : P.newWebSocket (w.ws.url ++ "?token=" ++ w.ws.token) = .error message) :
    (connect P isBindEvent w).ret = .ok false ∧
    (connect P isBindEvent w).world.ws.initStatus = -1 ∧
    (connect P isBindEvent w).world.log =
      w.log ++
        (Effect.consoleError (some message) (.errorObj (-1) message) ::
          (match w.ws.onError with
            | some f => [Effect.call f [.errorObj (-1) message, .undefined]]
            | none => [])) ∧
    (connect P isBindEvent w).world.transports = w.transports ∧
    (connect P isBindEvent w).world.timers = w.timers ∧
    (connect P isBindEvent w).world.ws =
      { w.ws with socketUrl := w.ws.url ++ "?token=" ++ w.ws.token, initStatus := -1 } := by
  rw [connect_error isBindEvent hu ht hc]
  refine ⟨rfl, ?_, ?_, ?_, ?_, ?_⟩
  · rw [(privateOnError_frame _ _ _).1]
  · rw [privateOnError_log]
    rfl
  · rw [(privateOnError_frame _ _ _).2.1]
  · rw [(privateOnError_frame _ _ _).2.2]
  · rw [(privateOnError_frame _ _ _).1]

/-- Instance of `connect_construction_failure`: the sample manager on a host
where every construction throws. -/
theorem connect_construction_failure_witness :
    (World.init Options.sample).ws.url ≠ "" ∧
    (World.init Options.sample).ws.token ≠ "" ∧
    Platform.refusing.newWebSocket "wss://x?token=t" = .error "The URL is invalid" ∧
    (connect Platform.refusing true (World.init Options.sample)).ret = .ok false ∧
    (connect Platform.refusing true (World.init Options.sample)).world.ws.initStatus = -1 ∧
    (connect Platform.refusing true (World.init Options.sample)).world.log =
      [Effect.consoleError (some "The URL is invalid") (.errorObj (-1) "The URL is invalid"),
       Effect.call 4 [.errorObj (-1) "The URL is invalid", .undefined]] ∧
    (connect Platform.refusing true (World.init Options.sample)).world.transports = [] :=
  ⟨by decide, by decide, rfl,
   (connect_construction_failure Platform.refusing true (World.init Options.sample)
     "The URL is invalid" (by decide) (by decide) rfl).1,
   (connect_construction_failure Platform.refusing true (World.init Options.sample)
     "The URL is invalid" (by decide) (by decide) rfl).2.1,
   (connect_construction_failure Platform.refusing true (World.init Options.sample)
     "The URL is invalid" (by decide) (by decide) rfl).2.2.1,
   (connect_construction_failure Platform.refusing true (World.init Options.sample)
     "The URL is invalid" (by decide) (by decide) rfl).2.2.2.1⟩

/-- Claim C14 fails as stated: with the transport open, a payload on which
`JSON.stringify` throws makes `send` raise that error (nothing in `send`
catches it); nothing is forwarded and no callback is called. -/
theorem send_unserializable_raises :
    status World.sampleOpen = 1 ∧
    Platform.plain.jsonStringify (.other 0) =
      .error "TypeError: the value cannot be serialized" ∧
    (send Platform.plain (.other 0) World.sampleOpen).ret =
      .error "TypeError: the value cannot be serialized" ∧
    (send Platform.plain (.other 0) World.sampleOpen).world.transports.map Transport.sent =
      [[]] ∧
    (send Platform.plain (.other 0) World.sampleOpen).world.log = World.sampleOpen.log :=
  ⟨by decide, rfl, rfl, by decide, rfl⟩

/-- Claim C14, amended: `connect` returns normally in every state and for either
flag: it returns true, or returns false after reporting an object of code `-1`
to the console and to `onError`, and it returns false whenever url or token is
empty or the construction throws.  `send` returns normally for every payload
that `JSON.stringify` serializes, and for every payload at all when no
transport is held or the transport is not open; it reports nothing: it prints
nothing, calls no callback and, without an open transport, changes nothing. -/
theorem connect_send_never_raise (P : Platform) (isBindEvent : Bool) (params : Json)
    (text : String) (w : World) (hp : P.jsonStringify params = .ok text) :
    ((connect P isBindEvent w).ret = .ok true ∨
      ((connect P isBindEvent w).ret = .ok false ∧
        ∃ msg, (connect P isBindEvent w).world.log =
          w.log ++
            (Effect.consoleError (some msg) (.errorObj (-1) msg) ::
              (match w.ws.onError with
                | some f => [Effect.call f [.errorObj (-1) msg, .undefined]]
                | none => [])))) ∧
    ((w.ws.url = "" ∨ w.ws.token = "" ∨
        (P.newWebSocket (w.ws.url ++ "?token=" ++ w.ws.token)).toBool = false) →
      (connect P isBindEvent w).ret = .ok false) ∧
    (send P params w).ret = .ok () ∧
    (send P params w).world.log = w.log ∧
    (∀ payload : Json, ¬ status w = 1 → send P payload w = ⟨w, .ok ()⟩) ∧
    (∀ payload : Json, w.ws.webSocket = none → send P payload w = ⟨w, .ok ()⟩) := by
  have hstat : w.ws.webSocket = none → ¬ status w = 1 := by
    intro h hs
    obtain ⟨t, tr, hws, _, _⟩ := (status_eq_one_iff w).1 hs
    rw [h] at hws
    cases hws
  have hsend : (send P params w).ret = .ok () ∧ (send P params w).world.log = w.log := by
    by_cases hs : status w = 1
    · obtain ⟨t, tr, hws, _, _⟩ := (status_eq_one_iff w).1 hs
      rw [send_of_open P params hs hws hp]
      exact ⟨rfl, rfl⟩
    · rw [send_of_not_open P params hs]
      exact ⟨rfl, rfl⟩
  have hdrop : ∀ payload : Json, ¬ status w = 1 → send P payload w = ⟨w, .ok ()⟩ :=
    fun payload hs => send_of_not_open P payload hs
  have hlog : ∀ msg : String, (privateOnError (.errorObj (-1) msg) .undefined w).log =
      w.log ++
        (Effect.consoleError (some msg) (.errorObj (-1) msg) ::
          (match w.ws.onError with
            | some f => [Effect.call f [.errorObj (-1) msg, .undefined]]
            | none => [])) := fun msg => privateOnError_log _ _ w
  by_cases hu : w.ws.url = ""
  · have he : connect P isBindEvent w =
        ⟨privateOnError (.errorObj (-1) "url can not be empty") .undefined w, .ok false⟩ := by
      simp [connect, hu]
    exact ⟨Or.inr ⟨by rw [he], _, by rw [he]; exact hlog _⟩, fun _ => by rw [he],
      hsend.1, hsend.2, hdrop, fun payload h => hdrop payload (hstat h)⟩
  · by_cases ht : w.ws.token = ""
    · have he : connect P isBindEvent w =
          ⟨privateOnError (.errorObj (-1) "token can not be empty") .undefined w, .ok false⟩ := by
        simp [connect, hu, ht]
      exact ⟨Or.inr ⟨by rw [he], _, by rw [he]; exact hlog _⟩, fun _ => by rw [he],
        hsend.1, hsend.2, hdrop, fun payload h => hdrop payload (hstat h)⟩
    · cases hc : P.newWebSocket (w.ws.url ++ "?token=" ++ w.ws.token) with
      | error m =>
        have h := connect_error (P := P) isBindEvent hu ht hc
        refine ⟨Or.inr ⟨by rw [h], m, ?_⟩, fun _ => by rw [h], hsend.1, hsend.2, hdrop,
          fun payload h => hdrop payload (hstat h)⟩
        rw [h, privateOnError_log]
        rfl
      | ok u =>
        cases u
        have h := connect_ok (P := P) isBindEvent hu ht hc
        refine ⟨Or.inl (by rw [h]), ?_, hsend.1, hsend.2, hdrop,
          fun payload h => hdrop payload (hstat h)⟩
        intro hf
        rcases hf with hf | hf | hf
        · exact absurd hf hu
        · exact absurd hf ht
        · simp [Except.toBool] at hf

/-- Instance of `connect_send_never_raise`: the sample manager without a url,
and the payload `{a:1}`. -/
theorem connect_send_never_raise_witness :
    Platform.plain.jsonStringify (.obj [("a", .num 1)]) = .ok "\x7b\"a\":1\x7d" ∧
    (World.init Options.noUrl).ws.url = "" ∧
    (connect Platform.plain true (World.init Options.noUrl)).ret = .ok false ∧
    (send Platform.plain (.obj [("a", .num 1)]) (World.init Options.noUrl)).ret = .ok () ∧
    (send Platform.plain (.obj [("a", .num 1)]) (World.init Options.noUrl)).world.log = [] ∧
    (∀ payload : Json,
      send Platform.plain payload (World.init Options.noUrl) =
        ⟨World.init Options.noUrl, .ok ()⟩) :=
  ⟨rfl, rfl,
   (connect_send_never_raise Platform.plain true (.obj [("a", .num 1)]) "\x7b\"a\":1\x7d"
     (World.init Options.noUrl) rfl).2.1 (Or.inl rfl),
   (connect_send_never_raise Platform.plain true (.obj [("a", .num 1)]) "\x7b\"a\":1\x7d"
     (World.init Options.noUrl) rfl).2.2.1,
   (connect_send_never_raise Platform.plain true (.obj [("a", .num 1)]) "\x7b\"a\":1\x7d"
     (World.init Options.noUrl) rfl).2.2.2.1,
   fun payload =>
     (connect_send_never_raise Platform.plain true (.obj [("a", .num 1)]) "\x7b\"a\":1\x7d"
       (World.init Options.noUrl) rfl).2.2.2.2.2 payload rfl⟩

/-- Claim C15, evaluated on the code: on the sample manager, built with four
function-valued options, an open notification calls `onConnect` with the
event, a message notification calls `onReceive` and an error notification
calls `onError`, but a close notification only prints a warning: the
disconnect handler appends one `console.warn` to the log and calls no
callback, in every state. -/
theorem disconnect_callback_never_invoked :
    (World.init Options.sample).ws.onConnect = some 1 ∧
    (World.init Options.sample).ws.onDisConnect = some 1 ∧
    (World.init Options.sample).ws.onReceive = some 3 ∧
    (World.init Options.sample).ws.onError = some 4 ∧
    (run Platform.plain (World.init Options.sample) [.connect true, .notify 0 .onClose ""]).log =
      [Effect.consoleWarn "websocket init fail reconnect..."] ∧
    (run Platform.plain (World.init Options.sample)
      [.connect true, .notify 0 .onOpen "", .notify 0 .onClose ""]).log =
      [Effect.consoleLog "websocket init success [wss://x]",
       Effect.call 1 [.event ⟨.onOpen, 0, ""⟩],
       Effect.consoleWarn "websocket exception reconnect..."] ∧
    (run Platform.plain (World.init Options.sample)
      [.connect true, .notify 0 .onMessage "hi"]).log =
      [Effect.consoleWarn "Unexpected token", Effect.call 3 [.text "hi"]] ∧
    (run Platform.plain (World.init Options.sample) [.connect true, .notify 0 .onError ""]).log =
      [Effect.consoleError none (.event ⟨.onError, 0, ""⟩),
       Effect.call 4 [.event ⟨.onError, 0, ""⟩, .undefined]] ∧
    (∀ w : World,
      (privateOnDisconnect w).log =
        w.log ++
          [Effect.consoleWarn
            (if w.ws.initStatus = -1 ∨ w.ws.initStatus = 0 then "websocket init fail reconnect..."
             else "websocket exception reconnect...")]) := by
  refine ⟨rfl, rfl, rfl, rfl, rfl, rfl, rfl, rfl, ?_⟩
  intro w
  unfold privateOnDisconnect reconnect World.emit
  split <;> rfl

/-- Claim C16: with non-empty url and token and a construction that succeeds,
`connect(true)` leaves on the new transport exactly the four registrations
open/`propOnConnect`, close/`propOnDisConnect`, message/`propOnReceive` and
error/`propOnError`; a following `close()` returns normally and leaves that
transport without any listener (and closed once); the transports that existed
before are touched by neither call. -/
theorem connect_close_roundtrip (P : Platform) (w : World)
    (hu : w.ws.url ≠ "") (ht : w.ws.token ≠ "")
    (hc : P.newWebSocket (w.ws.url ++ "?token=" ++ w.ws.token) = .ok ()) :
    (connect P true w).world.ws.webSocket = some w.transports.length ∧
    (connect P true w).world.transports[w.transports.length]? =
      some { url := w.ws.url ++ "?token=" ++ w.ws.token
             readyState := 0
             listeners :=
               [(.onOpen, .propOnConnect), (.onClose, .propOnDisConnect),
                (.onMessage, .propOnReceive), (.onError, .propOnError)]
             sent := []
             closeCalls := 0 } ∧
    (close (connect P true w).world).ret = .ok () ∧
    (close (connect P true w).world).world.transports[w.transports.length]? =
      some { url := w.ws.url ++ "?token=" ++ w.ws.token
             readyState := 2
             listeners := []
             sent := []
             closeCalls := 1 } ∧
    (∀ i : Nat, i < w.transports.length →
      (connect P true w).world.transports[i]? = w.transports[i]? ∧
      (close (connect P true w).world).world.transports[i]? = w.transports[i]?) := by
  have h1 := connect_ok (P := P) true hu ht hc
  have hws : (connect P true w).world.ws.webSocket = some w.transports.length := by rw [h1]
  have h2 := close_world hws
  have htr : (connect P true w).world.transports = w.transports ++
      [{ url := w.ws.url ++ "?token=" ++ w.ws.token, readyState := 0, listeners := boundPairs,
         sent := [], closeCalls := 0 }] := by rw [h1]; rfl
  refine ⟨hws, ?_, by rw [h2], ?_, ?_⟩
  · rw [htr]
    simp [boundPairs]
  · rw [h2]
    simp only [htr, modify_length_append]
    simp
    rfl
  · intro i hi
    constructor
    · rw [htr, List.getElem?_append_left hi]
    · rw [h2]
      simp only [htr]
      rw [List.getElem?_modify_ne _ _ (by omega), List.getElem?_append_left hi]



/-- Instance of `connect_close_roundtrip`: `connect(true)` and `close()` on the
sample manager. -/
theorem connect_close_roundtrip_witness :
    (World.init Options.sample).ws.url ≠ "" ∧
    (World.init Options.sample).ws.token ≠ "" ∧
    (connect Platform.plain true (World.init Options.sample)).world.transports[0]? =
      some { url := "wss://x?token=t"
             readyState := 0
             listeners :=
               [(.onOpen, .propOnConnect), (.onClose, .propOnDisConnect),
                (.onMessage, .propOnReceive), (.onError, .propOnError)]
             sent := []
             closeCalls := 0 } ∧
    (close (connect Platform.plain true (World.init Options.sample)).world).ret = .ok () ∧
    (close (connect Platform.plain true (World.init Options.sample)).world).world.transports[0]? =
      some { url := "wss://x?token=t", readyState := 2, listeners := [], sent := [],
             closeCalls := 1 } :=
  ⟨by decide, by decide,
   (connect_close_roundtrip Platform.plain (World.init Options.sample) (by decide) (by decide)
     rfl).2.1,
   (connect_close_roundtrip Platform.plain (World.init Options.sample) (by decide) (by decide)
     rfl).2.2.1,
   (connect_close_roundtrip Platform.plain (World.init Options.sample) (by decide) (by decide)
     rfl).2.2.2.1⟩

/-- Frame of `connect` on the timers and on the timer handle. -/
theorem connect_timers (P : Platform) (b : Bool) (w : World) :
    (connect P b w).world.timers = w.timers ∧
    (connect P b w).world.ws.reconnectTimer = w.ws.reconnectTimer := by
  unfold connect
  by_cases hu : w.ws.url = ""
  · simp [hu, (privateOnError_frame _ _ _).1, (privateOnError_frame _ _ _).2.2]
  · by_cases ht : w.ws.token = ""
    · simp [hu, ht, (privateOnError_frame _ _ _).1, (privateOnError_frame _ _ _).2.2]
    · simp only [hu, ht, if_false]
      cases hc : P.newWebSocket (w.ws.url ++ "?token=" ++ w.ws.token) with
      | error m => simp [(privateOnError_frame _ _ _).1, (privateOnError_frame _ _ _).2.2]
      | ok u => cases b <;> simp [World.onTransport]

/-- The transports after `connect`: the old ones, followed by the new one when
the construction succeeded. -/
theorem connect_transports (P : Platform) (b : Bool) (w : World) :
    (connect P b w).world.transports = w.transports ∨
    (connect P b w).world.transports =
      w.transports ++
        [{ url := w.ws.url ++ "?token=" ++ w.ws.token
           readyState := 0
           listeners := if b then boundPairs else []
           sent := []
           closeCalls := 0 }] := by
  by_cases hu : w.ws.url = ""
  · left
    simp [connect, hu, (privateOnError_frame _ _ _).2.1]
  · by_cases ht : w.ws.token = ""
    · left
      simp [connect, hu, ht, (privateOnError_frame _ _ _).2.1]
    · cases hc : P.newWebSocket (w.ws.url ++ "?token=" ++ w.ws.token) with
      | error m =>
        left
        simp [connect, hu, ht, hc, (privateOnError_frame _ _ _).2.1]
      | ok u =>
        right
        cases u
        rw [connect_ok b hu ht hc]

/-- Claim C17: the timer callback does one of two things.  When `initStatus` is
`1` it clears the timer referenced by `reconnectTimer` (which is then not
armed), nulls `reconnectTimer` and changes nothing else, so no transport is
constructed.  Otherwise it is `connect(false)`: timers and `reconnectTimer`
are unchanged, and the transports are the old ones, followed, when the
construction succeeds, by one new transport without any listener.  A tick of
a timer runs this callback when the timer is armed. -/
theorem tick_spec (P : Platform) (w : World) :
    reconnectTick P w =
      (if w.ws.initStatus = 1 then
        { w with
          timers := (clearInterval w.ws.reconnectTimer w).timers
          ws := { w.ws with reconnectTimer := none } }
      else (connect P false w).world) ∧
    (∀ id : Nat, w.ws.reconnectTimer = some id →
      isArmed (clearInterval w.ws.reconnectTimer w) id = false) ∧
    (connect P false w).world.timers = w.timers ∧
    (connect P false w).world.ws.reconnectTimer = w.ws.reconnectTimer ∧
    ((connect P false w).world.transports = w.transports ∨
      (connect P false w).world.transports =
        w.transports ++
          [{ url := w.ws.url ++ "?token=" ++ w.ws.token
             readyState := 0
             listeners := []
             sent := []
             closeCalls := 0 }]) ∧
    (∀ id : Nat, tick P id w = if isArmed w id then reconnectTick P w else w) := by
  refine ⟨?_, ?_, (connect_timers P false w).1, (connect_timers P false w).2,
    connect_transports P false w, fun _ => rfl⟩
  · unfold reconnectTick
    split
    · cases h : w.ws.reconnectTimer <;> rfl
    · rfl
  · intro id hid
    simp only [hid, clearInterval, isArmed, List.getElem?_modify_eq]
    cases h : w.timers[id]? <;> simp

/-- Claim C18: the error handler prints the error and calls the user `onError`
callback, when there is one, exactly once with the two arguments it received;
it changes no field of the manager (so `initStatus`, `webSocket`, `socketUrl`
and `reconnectTimer` are unchanged), no transport and no timer.  As a listener
it receives the event as its only argument. -/
theorem error_handler_spec (P : Platform) (error evt : Value) (w : World) :
    (privateOnError error evt w).log =
      w.log ++
        (Effect.consoleError error.msg error ::
          (match w.ws.onError with
            | some f => [Effect.call f [error, evt]]
            | none => [])) ∧
    (privateOnError error evt w).ws = w.ws ∧
    (privateOnError error evt w).transports = w.transports ∧
    (privateOnError error evt w).timers = w.timers ∧
    (∀ e : Event, invoke P .propOnError e w = privateOnError (.event e) .undefined w) := by
  refine ⟨?_, (privateOnError_frame error evt w).1, (privateOnError_frame error evt w).2.1,
    (privateOnError_frame error evt w).2.2, fun _ => rfl⟩
  unfold privateOnError World.emit
  cases hE : w.ws.onError <;> simp [hE]

/-- Claim C20: the `onDisConnect` field of a constructed manager is the
`onConnect` option when that option is a function and null otherwise, whatever
the `onDisConnect` option is. -/
theorem disconnect_slot_from_connect_option (options : Options) :
    (WS.new options).onDisConnect =
      (match options.onConnect with
        | .function id => some id
        | .nonFunction => none
        | .missing => none) ∧
    (∀ v : OptionValue,
      (WS.new { options with onDisConnect := v }).onDisConnect = (WS.new options).onDisConnect) ∧
    (WS.new Options.sample).onDisConnect = some 1 ∧
    (WS.new Options.noConnect).onDisConnect = none := by
  refine ⟨?_, fun _ => rfl, rfl, rfl⟩
  cases h : options.onConnect <;> simp [WS.new, OptionValue.asFunction, h]


/-! ### Ownership of transports -/

theorem invoke_webSocket (P : Platform) (h : Handler) (evt : Event) (w : World) :
    (invoke P h evt w).ws.webSocket = w.ws.webSocket := by
  cases h
  · simp [invoke, (privateOnConnect_frame evt w).1]
  · simp [invoke, (privateOnDisconnect_frame w).1]
  · simp [invoke, (privateOnReceive_frame P evt w).1]
  · simp [invoke, (privateOnError_frame _ _ w).1]

theorem foldl_invoke_webSocket (P : Platform) (evt : Event) (hs : List Handler) (w : World) :
    (hs.foldl (fun acc h => invoke P h evt acc) w).ws.webSocket = w.ws.webSocket := by
  induction hs generalizing w with
  | nil => rfl
  | cons h hs ih => rw [List.foldl_cons, ih, invoke_webSocket]

theorem notify_webSocket (P : Platform) (t : Nat) (k : EventKind) (d : String) (w : World) :
    (notify P t k d w).ws.webSocket = w.ws.webSocket := by
  unfold notify
  rw [foldl_invoke_webSocket]
  rfl

theorem owned_of_eq {w w' : World} (h : Owned w) (hws : w'.ws.webSocket = w.ws.webSocket)
    (htr : w'.transports = w.transports) : Owned w' := by
  unfold Owned
  rw [hws, htr]
  exact h

theorem owned_onTransport {w : World} (h : Owned w) (t : Nat) (f : Transport → Transport)
    (hf : ∀ tr, (f tr).closeCalls = tr.closeCalls ∧ (f tr).listeners = tr.listeners) :
    Owned (w.onTransport t f) := by
  constructor
  · intro i hi
    obtain ⟨tr, htr, hc⟩ := h.1 i hi
    simp only [World.onTransport, List.getElem?_modify]
    by_cases hti : t = i
    · subst hti
      exact ⟨f tr, by simp [htr], by rw [(hf tr).1, hc]⟩
    · exact ⟨tr, by simp [hti, htr], hc⟩
  · intro i tr' hi
    simp only [World.onTransport, List.getElem?_modify] at hi
    by_cases hti : t = i
    · subst hti
      cases h0 : w.transports[t]? with
      | none => simp [h0] at hi
      | some tr0 =>
        simp [h0] at hi
        subst hi
        rw [(hf tr0).1, (hf tr0).2]
        exact h.2 t tr0 h0
    · simp [hti] at hi
      exact h.2 i tr' hi

theorem owned_init (options : Options) : Owned (World.init options) := by
  constructor
  · intro t ht
    simp [World.init, WS.new] at ht
  · intro i tr hi
    simp [World.init] at hi

theorem owned_connect {w : World} (P : Platform) (b : Bool) (h : Owned w) :
    Owned (connect P b w).world := by
  by_cases hu : w.ws.url = ""
  · apply owned_of_eq h <;>
      simp [connect, hu, (privateOnError_frame _ _ _).1, (privateOnError_frame _ _ _).2.1]
  · by_cases ht : w.ws.token = ""
    · apply owned_of_eq h <;>
        simp [connect, hu, ht, (privateOnError_frame _ _ _).1, (privateOnError_frame _ _ _).2.1]
    · cases hc : P.newWebSocket (w.ws.url ++ "?token=" ++ w.ws.token) with
      | error m =>
        apply owned_of_eq h <;>
          simp [connect, hu, ht, hc, (privateOnError_frame _ _ _).1,
            (privateOnError_frame _ _ _).2.1]
      | ok u =>
        cases u
        rw [connect_ok b hu ht hc]
        constructor
        · intro t htt
          simp only [Option.some.injEq] at htt
          subst htt
          exact ⟨{ url := w.ws.url ++ "?token=" ++ w.ws.token, readyState := 0,
                   listeners := if b then boundPairs else [], sent := [], closeCalls := 0 },
            by simp, rfl⟩
        · intro i tr hi
          simp only [List.getElem?_append] at hi
          split at hi
          · rename_i hlt
            rcases h.2 i tr hi with h0 | ⟨h1, h2, _⟩
            · exact Or.inl h0
            · refine Or.inr ⟨h1, h2, ?_⟩
              simp only [ne_eq, Option.some.injEq]
              omega
          · cases hj : i - w.transports.length with
            | zero =>
              simp [hj] at hi
              subst hi
              exact Or.inl rfl
            | succ j => simp [hj] at hi

theorem owned_send {w : World} (P : Platform) (p : Json) (h : Owned w) :
    Owned (send P p w).world := by
  unfold send
  split
  · split
    · split
      · exact owned_onTransport h _ _ (fun tr => ⟨rfl, rfl⟩)
      · exact h
    · exact h
  · exact h

theorem owned_close {w : World} (hb : Bound w) (h : Owned w) : Owned (close w).world := by
  cases hws : w.ws.webSocket with
  | none =>
    apply owned_of_eq h
    · unfold close
      cases hrt : w.ws.reconnectTimer <;> simp [hws, clearInterval]
    · unfold close
      cases hrt : w.ws.reconnectTimer <;> simp [hws, clearInterval]
  | some t =>
    rw [close_world hws]
    obtain ⟨tr, htr, hc⟩ := h.1 t hws
    constructor
    · intro i hi
      simp at hi
    · intro i tr' hi
      simp only [List.getElem?_modify] at hi
      by_cases hti : t = i
      · subst hti
        simp [htr] at hi
        subst hi
        refine Or.inr ⟨?_, teardown_listeners (hb t tr htr), by simp⟩
        show tr.closeCalls + 1 = 1
        rw [hc]
      · simp [hti] at hi
        rcases h.2 i tr' hi with h0 | ⟨h1, h2, _⟩
        · exact Or.inl h0
        · exact Or.inr ⟨h1, h2, by simp⟩

theorem owned_notify {w : World} (P : Platform) (t : Nat) (k : EventKind) (d : String)
    (h : Owned w) : Owned (notify P t k d w) := by
  have h1 : Owned (w.onTransport t (Transport.noteEvent k)) :=
    owned_onTransport h t _ (fun tr => by cases k <;> exact ⟨rfl, rfl⟩)
  apply owned_of_eq h1
  · rw [notify_webSocket]
    rfl
  · rw [notify_transports]
    rfl

theorem owned_reconnectTick {w : World} (P : Platform) (h : Owned w) :
    Owned (reconnectTick P w) := by
  unfold reconnectTick
  split
  · apply owned_of_eq h
    · cases w.ws.reconnectTimer <;> rfl
    · cases w.ws.reconnectTimer <;> rfl
  · exact owned_connect P false h

theorem owned_step {w : World} (P : Platform) (a : Action) (hb : Bound w) (h : Owned w) :
    Owned (step P w a) := by
  cases a with
  | connect b => exact owned_connect P b h
  | status => exact h
  | send p => exact owned_send P p h
  | close => exact owned_close hb h
  | notify t k d => exact owned_notify P t k d h
  | tick id =>
    simp only [step, tick]
    split
    · exact owned_reconnectTick P h
    · exact h

theorem owned_run {w : World} (P : Platform) (actions : List Action) (hb : Bound w)
    (h : Owned w) : Owned (run P w actions) := by
  induction actions generalizing w with
  | nil => exact h
  | cons a as ih => exact ih (bound_step P a hb) (owned_step P a hb h)

/-- Claim C19, amended: in every reachable state `webSocket` is null or
references a transport the manager created and has not called `close()` on;
a transport on which the manager has called `close()` was closed exactly once,
carries no listener and is not referenced by `webSocket`; and `connect` leaves
the transports created before as they are, appending the new one when the
construction succeeds. -/
theorem single_handle (P : Platform) (w : World) (hr : Reachable P w) :
    (∀ t : Nat, w.ws.webSocket = some t →
      ∃ tr, w.transports[t]? = some tr ∧ tr.closeCalls = 0) ∧
    (∀ (i : Nat) (tr : Transport), w.transports[i]? = some tr →
      tr.closeCalls = 0 ∨
        (tr.closeCalls = 1 ∧ tr.listeners = [] ∧ w.ws.webSocket ≠ some i)) ∧
    (∀ isBindEvent : Bool,
      (connect P isBindEvent w).world.transports = w.transports ∨
      (connect P isBindEvent w).world.transports =
        w.transports ++
          [{ url := w.ws.url ++ "?token=" ++ w.ws.token
             readyState := 0
             listeners := if isBindEvent then boundPairs else []
             sent := []
             closeCalls := 0 }]) := by
  obtain ⟨options, actions, rfl⟩ := hr
  have h := owned_run P actions (bound_init options) (owned_init options)
  exact ⟨h.1, h.2, fun b => connect_transports P b _⟩

/-- Claim C19 fails as stated: after `connect(); connect()` the first transport
still carries the four listeners and was never closed, while `webSocket`
references the second; and after `connect()`, a close notification and two
ticks, three transports exist, none was closed, and `webSocket` references the
third. -/
theorem earlier_transport_left_listening :
    (run Platform.plain (World.init Options.sample)
      [.connect true, .connect true]).ws.webSocket = some 1 ∧
    (run Platform.plain (World.init Options.sample)
      [.connect true, .connect true]).transports.map Transport.listeners =
        [boundPairs, boundPairs] ∧
    (run Platform.plain (World.init Options.sample)
      [.connect true, .connect true]).transports.map Transport.closeCalls = [0, 0] ∧
    (run Platform.plain (World.init Options.sample)
      [.connect true, .notify 0 .onClose "", .tick 0, .tick 0]).ws.webSocket = some 2 ∧
    (run Platform.plain (World.init Options.sample)
      [.connect true, .notify 0 .onClose "", .tick 0, .tick 0]).transports.map
        Transport.closeCalls = [0, 0, 0] ∧
    (run Platform.plain (World.init Options.sample)
      [.connect true, .notify 0 .onClose "", .tick 0, .tick 0]).transports.map
        Transport.listeners = [boundPairs, [], []] :=
  ⟨by decide, by decide, by decide, by decide, by decide, by decide⟩

/-- Instance of `single_handle`: the sample manager after `connect()`,
`close()` and a second `connect()`. -/
theorem single_handle_witness :
    Reachable Platform.plain World.sampleReconnected ∧
    World.sampleReconnected.ws.webSocket = some 1 ∧
    World.sampleReconnected.transports.map Transport.closeCalls = [1, 0] ∧
    (∀ t : Nat, World.sampleReconnected.ws.webSocket = some t →
      ∃ tr, World.sampleReconnected.transports[t]? = some tr ∧ tr.closeCalls = 0) ∧
    (∀ (i : Nat) (tr : Transport), World.sampleReconnected.transports[i]? = some tr →
      tr.closeCalls = 0 ∨
        (tr.closeCalls = 1 ∧ tr.listeners = [] ∧
          World.sampleReconnected.ws.webSocket ≠ some i)) :=
  ⟨⟨Options.sample, _, rfl⟩, by decide, by decide,
   (single_handle Platform.plain World.sampleReconnected ⟨Options.sample, _, rfl⟩).1,
   (single_handle Platform.plain World.sampleReconnected ⟨Options.sample, _, rfl⟩).2.1⟩

end DWebsocket
